import Mathlib

/-
Verification development for the brewfather-mcp repository.

The Python sources are shallowly embedded in Lean 4:
  * JSON payloads are modelled by the `Json` inductive; JSON numbers are
    rationals (exact arithmetic in place of IEEE floats).
  * Each pydantic model becomes a validator `X.model_validate : JObj → Except String _`
    that checks every declared field with its upstream alias, requiredness,
    type and default, mirroring `src/brewfather_mcp/types/*.py` field by field.
    Models whose parsed field values are read by a property additionally get a
    Lean structure; the remaining validators return `Unit` after checking all
    fields.  The error value is the name of the offending field.
  * `ListQueryParams.as_query_param_str` and `BrewfatherClient._build_url`
    from `src/brewfather_mcp/api.py` are embedded including Python's
    truthiness rules and f-string rendering of `True` / `None`.
  * `brewfather_mcp.utils.get_in_batches` is not present in the source tree;
    it is modelled from the specification (§4.4, §5) as a nondeterministic
    scheduler with admission control, quantified over completion schedules.
-/

inductive Json where
  | null
  | bool (b : Bool)
  | num (q : ℚ)
  | str (s : String)
  | arr (xs : List Json)
  | obj (fields : List (String × Json))

/-- A JSON object body: association list of key/value pairs. -/
abbrev JObj := List (String × Json)

/-- Key lookup in a JSON object (first match wins), as in a Python dict
built from parsed JSON. -/
def jget : JObj → String → Option Json
  | [], _ => none
  | (k, v) :: rest, key => if k = key then some v else jget rest key

/-- Lookup for a field with an upstream alias on a model configured with
`populate_by_name = True`: the alias has priority, the field name is the
fallback. -/
def jgetA (o : JObj) (upKey fieldKey : String) : Option Json :=
  match jget o upKey with
  | some v => some v
  | none => jget o fieldKey

/-- Two-step lookup realizing pydantic `AliasPath(k1, k2)`. -/
def jget2 (o : JObj) (k1 k2 : String) : Option Json :=
  match jget o k1 with
  | some (.obj inner) => jget inner k2
  | _ => none

/-- Value of a Python `datetime` field parsed by pydantic: an epoch number or
an ISO-8601 string.  The ISO grammar check pydantic performs on strings is
abstracted: the accepted string is carried verbatim.  No claim reads these
fields. -/
inductive PyDateTime where
  | epoch (q : ℚ)
  | iso (s : String)

section Combinators

variable {α ε : Type}

/-- Required `str` field. -/
def vStr (fld : String) : Option Json → Except String String
  | some (.str s) => .ok s
  | _ => .error fld

/-- `str` field with a non-null default (e.g. `notes: str = ""`): absent uses
the default, `null` is rejected. -/
def vStrD (fld : String) (d : String) : Option Json → Except String String
  | none => .ok d
  | some (.str s) => .ok s
  | _ => .error fld

/-- Required nullable field `str | None` without a default
(`InventoryItem.id`): the key must be present, `null` is accepted. -/
def vStrNull (fld : String) : Option Json → Except String (Option String)
  | some .null => .ok none
  | some (.str s) => .ok (some s)
  | _ => .error fld

/-- Optional field `str | None = None`. -/
def vOptStr (fld : String) : Option Json → Except String (Option String)
  | none => .ok none
  | some .null => .ok none
  | some (.str s) => .ok (some s)
  | _ => .error fld

/-- Required `float` field. -/
def vFloat (fld : String) : Option Json → Except String ℚ
  | some (.num q) => .ok q
  | _ => .error fld

/-- `float` field with a default. -/
def vFloatD (fld : String) (d : ℚ) : Option Json → Except String ℚ
  | none => .ok d
  | some (.num q) => .ok q
  | _ => .error fld

/-- Optional field `float | None = None`. -/
def vOptFloat (fld : String) : Option Json → Except String (Option ℚ)
  | none => .ok none
  | some .null => .ok none
  | some (.num q) => .ok (some q)
  | _ => .error fld

/-- Required `int` field: a JSON number with an integral value. -/
def vInt (fld : String) : Option Json → Except String Int
  | some (.num q) => if q.den = 1 then .ok q.num else .error fld
  | _ => .error fld

/-- Optional field `int | None = None`. -/
def vOptInt (fld : String) : Option Json → Except String (Option Int)
  | none => .ok none
  | some .null => .ok none
  | some (.num q) => if q.den = 1 then .ok (some q.num) else .error fld
  | _ => .error fld

/-- Required `bool` field. -/
def vBool (fld : String) : Option Json → Except String Bool
  | some (.bool b) => .ok b
  | _ => .error fld

/-- `bool` field with a default (tracking flags default to `False`). -/
def vBoolD (fld : String) (d : Bool) : Option Json → Except String Bool
  | none => .ok d
  | some (.bool b) => .ok b
  | _ => .error fld

/-- Optional field `bool | None = None`. -/
def vOptBool (fld : String) : Option Json → Except String (Option Bool)
  | none => .ok none
  | some .null => .ok none
  | some (.bool b) => .ok (some b)
  | _ => .error fld

/-- Required `StrEnum` field: the string must belong to the documented
literal set of the enum, anything else is a validation error. -/
def vEnum (fld : String) (parse : String → Option ε) : Option Json → Except String ε
  | some (.str s) =>
    match parse s with
    | some e => .ok e
    | none => .error fld
  | _ => .error fld

/-- `StrEnum` field with a default value (e.g. `Batch.status`). -/
def vEnumD (fld : String) (parse : String → Option ε) (d : ε) :
    Option Json → Except String ε
  | none => .ok d
  | some (.str s) =>
    match parse s with
    | some e => .ok e
    | none => .error fld
  | _ => .error fld

/-- Optional field `StrEnum | None = None`. -/
def vOptEnum (fld : String) (parse : String → Option ε) :
    Option Json → Except String (Option ε)
  | none => .ok none
  | some .null => .ok none
  | some (.str s) =>
    match parse s with
    | some e => .ok (some e)
    | none => .error fld
  | _ => .error fld

/-- Required nested model field. -/
def vObj (fld : String) (sub : JObj → Except String α) : Option Json → Except String α
  | some (.obj o) => sub o
  | _ => .error fld

/-- Optional nested model field `Model | None = None`. -/
def vOptObj (fld : String) (sub : JObj → Except String α) :
    Option Json → Except String (Option α)
  | none => .ok none
  | some .null => .ok none
  | some (.obj o) => (sub o).map some
  | _ => .error fld

/-- Union of two model shapes (`A | B`, smart left-to-right): the payload must
validate against one of them. -/
def vOptUnion2 (fld : String) (sub1 sub2 : JObj → Except String Unit) :
    Option Json → Except String (Option Unit)
  | none => .ok none
  | some .null => .ok none
  | some (.obj o) =>
    match sub1 o with
    | .ok _ => .ok (some ())
    | .error _ => (sub2 o).map some
  | _ => .error fld

/-- A list element that must be a nested model object. -/
def jobjElem (fld : String) (sub : JObj → Except String α) : Json → Except String α
  | .obj o => sub o
  | _ => .error fld

/-- Collection field `list[Model]` with `default_factory=list`. -/
def vListD (fld : String) (sub : JObj → Except String α) :
    Option Json → Except String (List α)
  | none => .ok []
  | some (.arr xs) => xs.mapM (jobjElem fld sub)
  | _ => .error fld

/-- A list element that must be a JSON string. -/
def jstrElem (fld : String) : Json → Except String String
  | .str s => .ok s
  | _ => .error fld

/-- Collection field `list[str]` with `default_factory=list`. -/
def vStrListD (fld : String) : Option Json → Except String (List String)
  | none => .ok []
  | some (.arr xs) => xs.mapM (jstrElem fld)
  | _ => .error fld

/-- Optional field `list[str] | None = None`. -/
def vOptStrList (fld : String) : Option Json → Except String (Option (List String))
  | none => .ok none
  | some .null => .ok none
  | some (.arr xs) => (xs.mapM (jstrElem fld)).map some
  | _ => .error fld

/-- Field `Dict[str, Any]` with `default_factory=dict`. -/
def vDictD (fld : String) : Option Json → Except String JObj
  | none => .ok []
  | some (.obj o) => .ok o
  | _ => .error fld

/-- Optional field `Dict[str, Any] | None = None`. -/
def vOptDict (fld : String) : Option Json → Except String (Option JObj)
  | none => .ok none
  | some .null => .ok none
  | some (.obj o) => .ok (some o)
  | _ => .error fld

/-- A list element that must be a JSON object. -/
def jdictElem (fld : String) : Json → Except String JObj
  | .obj o => .ok o
  | _ => .error fld

/-- Field `List[Dict[str, Any]]` with `default_factory=list`. -/
def vAnyListD (fld : String) : Option Json → Except String (List JObj)
  | none => .ok []
  | some (.arr xs) => xs.mapM (jdictElem fld)
  | _ => .error fld

/-- Required `datetime` field. -/
def vDatetime (fld : String) : Option Json → Except String PyDateTime
  | some (.num q) => .ok (.epoch q)
  | some (.str s) => .ok (.iso s)
  | _ => .error fld

/-- Optional field `datetime | None = None`. -/
def vOptDatetime (fld : String) : Option Json → Except String (Option PyDateTime)
  | none => .ok none
  | some .null => .ok none
  | some (.num q) => .ok (some (.epoch q))
  | some (.str s) => .ok (some (.iso s))
  | _ => .error fld

end Combinators

/-- Zero-padded rendering of a nonnegative integer to at least `w` digits. -/
def padNat (w : Nat) (n : Int) : String :=
  let s := toString n.toNat
  let pad := w - s.length
  String.mk (List.replicate pad '0') ++ s

/-- Modelled from the spec: `brewfather_mcp.utils.convert_timestamp_to_iso8601`
is imported by the type modules but `brewfather_mcp/utils.py` is not in the
source tree.  Per §4.3 of the specification an integer epoch-milliseconds
value normalizes to an ISO-8601 date string.  Days are converted to a civil
date with the standard days-from-epoch algorithm. -/
def epochMsToIso (ms : Int) : String :=
  let days := ms / 86400000
  let z := days + 719468
  let era := (if 0 ≤ z then z else z - 146096) / 146097
  let doe := z - era * 146097
  let yoe := (doe - doe / 1460 + doe / 36524 - doe / 146096) / 365
  let doy := doe - (365 * yoe + yoe / 4 - yoe / 100)
  let mp := (5 * doy + 2) / 153
  let d := doy - (153 * mp + 2) / 5 + 1
  let m := mp + (if mp < 10 then 3 else -9)
  let y := yoe + era * 400 + (if m ≤ 2 then 1 else 0)
  padNat 4 y ++ "-" ++ padNat 2 m ++ "-" ++ padNat 2 d

/-- Date-normalizing field: `str | None = None` with the
`convert_timestamp_to_isodate` before-validator of the type modules.
Integers (epoch milliseconds) are converted to an ISO-8601 string, strings
pass through unchanged; the validator does not run when the key is absent. -/
def vDateNorm (fld : String) : Option Json → Except String (Option String)
  | none => .ok none
  | some .null => .ok none
  | some (.num q) => if q.den = 1 then .ok (some (epochMsToIso q.num)) else .error fld
  | some (.str s) => .ok (some s)
  | _ => .error fld

/- Monad reduction lemmas for `Except String`. -/

theorem ok_bind {α β : Type} (a : α) (f : α → Except String β) :
    (Except.ok a >>= f) = f a := rfl

theorem error_bind {α β : Type} (e : String) (f : α → Except String β) :
    ((Except.error e : Except String α) >>= f) = .error e := rfl

theorem ebind_ok_iff {α β : Type} (x : Except String α) (f : α → Except String β) (b : β) :
    (x >>= f) = .ok b ↔ ∃ a, x = .ok a ∧ f a = .ok b := by
  cases x <;> simp [Bind.bind, Except.bind]

theorem emap_ok {α β : Type} (g : α → β) (a : α) :
    (g <$> (Except.ok a : Except String α)) = .ok (g a) := rfl

theorem emap_error {α β : Type} (g : α → β) (e : String) :
    (g <$> (Except.error e : Except String α)) = .error e := rfl

/- Enumerations, from src/brewfather_mcp/types (StrEnum classes). -/

/-- Batch lifecycle status (types/batch.py `BatchStatus`). -/
inductive BatchStatus where
  | planning | brewing | fermenting | conditioning | completed | archived
deriving Repr, DecidableEq

def BatchStatus.val : BatchStatus → String
  | .planning => "Planning"
  | .brewing => "Brewing"
  | .fermenting => "Fermenting"
  | .conditioning => "Conditioning"
  | .completed => "Completed"
  | .archived => "Archived"

/-- Membership test of `BatchStatus`, as pydantic runs it on an input string. -/
def BatchStatus.parse (s : String) : Option BatchStatus :=
  if s = "Planning" then some .planning
  else if s = "Brewing" then some .brewing
  else if s = "Fermenting" then some .fermenting
  else if s = "Conditioning" then some .conditioning
  else if s = "Completed" then some .completed
  else if s = "Archived" then some .archived
  else none

/-- Hop use stage (types/hop.py `HopUse`). -/
inductive HopUse where
  | boil | dryHop | aroma | firstWort | hopstand
deriving Repr, DecidableEq

def HopUse.val : HopUse → String
  | .boil => "Boil"
  | .dryHop => "Dry Hop"
  | .aroma => "Aroma"
  | .firstWort => "First Wort"
  | .hopstand => "Hopstand"

def HopUse.parse (s : String) : Option HopUse :=
  if s = "Boil" then some .boil
  else if s = "Dry Hop" then some .dryHop
  else if s = "Aroma" then some .aroma
  else if s = "First Wort" then some .firstWort
  else if s = "Hopstand" then some .hopstand
  else none

/-- Yeast physical form (types/yeast.py `YeastForm`). -/
inductive YeastForm where
  | dry | liquid | slant | culture
deriving Repr, DecidableEq

def YeastForm.val : YeastForm → String
  | .dry => "Dry"
  | .liquid => "Liquid"
  | .slant => "Slant"
  | .culture => "Culture"

def YeastForm.parse (s : String) : Option YeastForm :=
  if s = "Dry" then some .dry
  else if s = "Liquid" then some .liquid
  else if s = "Slant" then some .slant
  else if s = "Culture" then some .culture
  else none

/-- Misc use stage (types/misc.py `MiscUse`). -/
inductive MiscUse where
  | mash | boil | primary | secondary | bottling
deriving Repr, DecidableEq

def MiscUse.val : MiscUse → String
  | .mash => "Mash"
  | .boil => "Boil"
  | .primary => "Primary"
  | .secondary => "Secondary"
  | .bottling => "Bottling"

def MiscUse.parse (s : String) : Option MiscUse :=
  if s = "Mash" then some .mash
  else if s = "Boil" then some .boil
  else if s = "Primary" then some .primary
  else if s = "Secondary" then some .secondary
  else if s = "Bottling" then some .bottling
  else none

/-- Misc category (types/misc.py `MiscType`). -/
inductive MiscType where
  | waterAgent | fining | other | spice | herb
deriving Repr, DecidableEq

def MiscType.val : MiscType → String
  | .waterAgent => "Water Agent"
  | .fining => "Fining"
  | .other => "Other"
  | .spice => "Spice"
  | .herb => "Herb"

def MiscType.parse (s : String) : Option MiscType :=
  if s = "Water Agent" then some .waterAgent
  else if s = "Fining" then some .fining
  else if s = "Other" then some .other
  else if s = "Spice" then some .spice
  else if s = "Herb" then some .herb
  else none

/-- Carbonation method (types/base.py `CarbonationType`). -/
inductive CarbonationType where
  | sugar | kegForce | co2Tabs
deriving Repr, DecidableEq

def CarbonationType.val : CarbonationType → String
  | .sugar => "Sugar"
  | .kegForce => "Keg (Force)"
  | .co2Tabs => "CO2 Tabs"

def CarbonationType.parse (s : String) : Option CarbonationType :=
  if s = "Sugar" then some .sugar
  else if s = "Keg (Force)" then some .kegForce
  else if s = "CO2 Tabs" then some .co2Tabs
  else none

/-- Final-gravity formula variant (types/base.py `FgFormula`). -/
inductive FgFormula where
  | normal | advanced
deriving Repr, DecidableEq

def FgFormula.val : FgFormula → String
  | .normal => "normal"
  | .advanced => "adv"

def FgFormula.parse (s : String) : Option FgFormula :=
  if s = "normal" then some .normal
  else if s = "adv" then some .advanced
  else none

/-- IBU formula variant (types/base.py `IbuFormula`). -/
inductive IbuFormula where
  | tinseth | rager
deriving Repr, DecidableEq

def IbuFormula.parse (s : String) : Option IbuFormula :=
  if s = "tinseth" then some .tinseth
  else if s = "rager" then some .rager
  else none

/-- Mash step type (types/base.py `MashStepType`). -/
inductive MashStepType where
  | infusion | temperature | decoction
deriving Repr, DecidableEq

def MashStepType.parse (s : String) : Option MashStepType :=
  if s = "Infusion" then some .infusion
  else if s = "Temperature" then some .temperature
  else if s = "Decoction" then some .decoction
  else none

/-- Fermentation step type (types/base.py `FermentationStepType`). -/
inductive FermentationStepType where
  | primary | secondary | conditioning
deriving Repr, DecidableEq

def FermentationStepType.parse (s : String) : Option FermentationStepType :=
  if s = "Primary" then some .primary
  else if s = "Secondary" then some .secondary
  else if s = "Conditioning" then some .conditioning
  else none

/-- Recipe type (types/recipe.py `RecipeType`). -/
inductive RecipeType where
  | allGrain | extract | partialMash
deriving Repr, DecidableEq

def RecipeType.parse (s : String) : Option RecipeType :=
  if s = "All Grain" then some .allGrain
  else if s = "Extract" then some .extract
  else if s = "Partial Mash" then some .partialMash
  else none

/-- Inventory category (types/inventory.py `InventoryCategory`), a StrEnum
with `auto()` values, i.e. the lowercased member names. -/
inductive InventoryCategory where
  | fermentables | hops | miscs | yeasts
deriving Repr, DecidableEq

def InventoryCategory.val : InventoryCategory → String
  | .fermentables => "fermentables"
  | .hops => "hops"
  | .miscs => "miscs"
  | .yeasts => "yeasts"

/-- Sort direction (api.py `OrderByDirection`). -/
inductive OrderByDirection where
  | ascending | descending
deriving Repr, DecidableEq

def OrderByDirection.val : OrderByDirection → String
  | .ascending => "asc"
  | .descending => "desc"

/- types/base.py: Timestamp and the version envelope. -/

/-- The two-field upstream timestamp (types/base.py `Timestamp`). -/
structure Timestamp where
  seconds : Int
  nanoseconds : Int
deriving Repr, DecidableEq

/-- Validator for `Timestamp` (aliases `_seconds`, `_nanoseconds`; the model
declares no `populate_by_name`). -/
def Timestamp.model_validate (o : JObj) : Except String Timestamp := do
  let seconds ← vInt "_seconds" (jget o "_seconds")
  let nanoseconds ← vInt "_nanoseconds" (jget o "_nanoseconds")
  pure { seconds := seconds, nanoseconds := nanoseconds }

/-- `Timestamp.to_datetime`: `datetime.fromtimestamp(seconds + nanoseconds / 1e9)`.
The produced `datetime` denotes the epoch instant `seconds + nanoseconds / 1e9`,
modelled as an exact rational. -/
def Timestamp.to_datetime (t : Timestamp) : ℚ :=
  (t.seconds : ℚ) + (t.nanoseconds : ℚ) / 1e9

/-- Canonical wire form of a `Timestamp` (by-alias serialization). -/
def Timestamp.toJson (t : Timestamp) : JObj :=
  [("_seconds", .num (t.seconds : ℚ)), ("_nanoseconds", .num (t.nanoseconds : ℚ))]

/-- Version-envelope fields shared by every Detail model
(types/base.py `VersionedModel`). -/
structure VersionedModel where
  version : String
  created : Timestamp
  timestamp : Timestamp
  timestamp_ms : Int
  rev : String
deriving Repr, DecidableEq

/-- Field checks of `VersionedModel` as they run inside an inheriting model;
`pbn` is the inheriting model's `populate_by_name` setting. -/
def VersionedModel.checkFields (pbn : Bool) (o : JObj) : Except String VersionedModel := do
  let version ← vStr "_version" (if pbn then jgetA o "_version" "version" else jget o "_version")
  let created ← vObj "_created" Timestamp.model_validate
    (if pbn then jgetA o "_created" "created" else jget o "_created")
  let timestamp ← vObj "_timestamp" Timestamp.model_validate
    (if pbn then jgetA o "_timestamp" "timestamp" else jget o "_timestamp")
  let timestamp_ms ← vInt "_timestamp_ms"
    (if pbn then jgetA o "_timestamp_ms" "timestamp_ms" else jget o "_timestamp_ms")
  let rev ← vStr "_rev" (if pbn then jgetA o "_rev" "rev" else jget o "_rev")
  pure { version := version, created := created, timestamp := timestamp,
         timestamp_ms := timestamp_ms, rev := rev }

/-- Canonical wire form of the version envelope (by-alias serialization). -/
def VersionedModel.toJson (v : VersionedModel) : JObj :=
  [("_version", .str v.version),
   ("_created", .obj v.created.toJson),
   ("_timestamp", .obj v.timestamp.toJson),
   ("_timestamp_ms", .num (v.timestamp_ms : ℚ)),
   ("_rev", .str v.rev)]

/- types/base.py: process schedule and water models (validate-only). -/

/-- Validator for `MashStep` (no `populate_by_name`; aliases only). -/
def MashStep.model_validate (o : JObj) : Except String Unit := do
  let _ ← vOptStr "name" (jget o "name")
  let _ ← vEnum "type" MashStepType.parse (jget o "type")
  let _ ← vFloat "stepTemp" (jget o "stepTemp")
  let _ ← vInt "stepTime" (jget o "stepTime")
  let _ ← vOptInt "rampTime" (jget o "rampTime")
  let _ ← vOptFloat "infuseTemp" (jget o "infuseTemp")
  let _ ← vOptFloat "infuseAmount" (jget o "infuseAmount")
  let _ ← vOptFloat "displayStepTemp" (jget o "displayStepTemp")
  pure ()

/-- Validator for `MashSchedule`. -/
def MashSchedule.model_validate (o : JObj) : Except String Unit := do
  let _ ← vStr "name" (jget o "name")
  let _ ← vListD "steps" MashStep.model_validate (jget o "steps")
  pure ()

/-- Validator for `BoilStep`. -/
def BoilStep.model_validate (o : JObj) : Except String Unit := do
  let _ ← vStr "name" (jget o "name")
  let _ ← vInt "time" (jget o "time")
  pure ()

/-- Validator for `EquipmentProfile` (name only). -/
def EquipmentProfile.model_validate (o : JObj) : Except String Unit := do
  let _ ← vStr "name" (jget o "name")
  pure ()

/-- Validator for `EquipmentProfileDetail` (`populate_by_name = True`). -/
def EquipmentProfileDetail.model_validate (o : JObj) : Except String Unit := do
  let _ ← vStr "name" (jget o "name")
  let _ ← vFloat "batchSize" (jgetA o "batchSize" "batch_size")
  let _ ← vFloat "efficiency" (jget o "efficiency")
  let _ ← vFloat "mashEfficiency" (jgetA o "mashEfficiency" "mash_efficiency")
  let _ ← vFloat "boilSize" (jgetA o "boilSize" "boil_size")
  let _ ← vInt "boilTime" (jgetA o "boilTime" "boil_time")
  let _ ← vFloat "bottlingVolume" (jgetA o "bottlingVolume" "bottling_volume")
  let _ ← vFloat "fermenterVolume" (jgetA o "fermenterVolume" "fermenter_volume")
  let _ ← vFloat "trubChillerLoss" (jgetA o "trubChillerLoss" "trub_chiller_loss")
  let _ ← vFloat "postBoilKettleVol" (jgetA o "postBoilKettleVol" "post_boil_kettle_vol")
  let _ ← vFloat "boilOffPerHr" (jgetA o "boilOffPerHr" "boil_off_per_hr")
  let _ ← vFloat "mashTunDeadSpace" (jgetA o "mashTunDeadSpace" "mash_tun_dead_space")
  let _ ← vFloat "mashWaterMax" (jgetA o "mashWaterMax" "mash_water_max")
  let _ ← vBool "mashWaterVolumeLimitEnabled"
    (jgetA o "mashWaterVolumeLimitEnabled" "mash_water_volume_limit_enabled")
  let _ ← vFloat "spargeTemperature" (jgetA o "spargeTemperature" "sparge_temperature")
  let _ ← vFloat "grainTemperature" (jgetA o "grainTemperature" "grain_temperature")
  let _ ← vFloat "ambientTemperature" (jgetA o "ambientTemperature" "ambient_temperature")
  let _ ← vStr "efficiencyType" (jgetA o "efficiencyType" "efficiency_type")
  let _ ← vBool "calcMashEfficiency" (jgetA o "calcMashEfficiency" "calc_mash_efficiency")
  let _ ← vFloat "evaporationRate" (jgetA o "evaporationRate" "evaporation_rate")
  let _ ← vFloat "hopUtilization" (jgetA o "hopUtilization" "hop_utilization")
  let _ ← vBool "calcAromaHopUtilization"
    (jgetA o "calcAromaHopUtilization" "calc_aroma_hop_utilization")
  let _ ← vFloat "aromaHopUtilization" (jgetA o "aromaHopUtilization" "aroma_hop_utilization")
  let _ ← vFloat "hopstandTemperature" (jgetA o "hopstandTemperature" "hopstand_temperature")
  let _ ← vOptFloat "fermenterLoss" (jgetA o "fermenterLoss" "fermenter_loss")
  let _ ← vFloat "fermenterLossEstimate"
    (jgetA o "fermenterLossEstimate" "fermenter_loss_estimate")
  let _ ← vBool "calcBoilVolume" (jgetA o "calcBoilVolume" "calc_boil_volume")
  let _ ← vOptStr "mashWaterFormula" (jgetA o "mashWaterFormula" "mash_water_formula")
  let _ ← vOptStr "spargeWaterFormula" (jgetA o "spargeWaterFormula" "sparge_water_formula")
  pure ()

/-- Validator for `FermentationStep` (no `populate_by_name`). -/
def FermentationStep.model_validate (o : JObj) : Except String Unit := do
  let _ ← vEnum "type" FermentationStepType.parse (jget o "type")
  let _ ← vFloat "stepTemp" (jget o "stepTemp")
  let _ ← vInt "stepTime" (jget o "stepTime")
  let _ ← vOptInt "actualTime" (jget o "actualTime")
  let _ ← vOptFloat "displayStepTemp" (jget o "displayStepTemp")
  let _ ← vOptFloat "displayPressure" (jget o "displayPressure")
  let _ ← vOptFloat "pressure" (jget o "pressure")
  let _ ← vOptFloat "ramp" (jget o "ramp")
  pure ()

/-- Validator for `FermentationSchedule`. -/
def FermentationSchedule.model_validate (o : JObj) : Except String Unit := do
  let _ ← vStr "name" (jget o "name")
  let _ ← vListD "steps" FermentationStep.model_validate (jget o "steps")
  pure ()

/-- Validator for `WaterProfile` (field `type` defaults to `"source"`). -/
def WaterProfile.model_validate (o : JObj) : Except String Unit := do
  let _ ← vStr "name" (jget o "name")
  let _ ← vStrD "type" "source" (jget o "type")
  let _ ← vFloat "calcium" (jget o "calcium")
  let _ ← vFloat "magnesium" (jget o "magnesium")
  let _ ← vFloat "sodium" (jget o "sodium")
  let _ ← vFloat "chloride" (jget o "chloride")
  let _ ← vFloat "sulfate" (jget o "sulfate")
  let _ ← vFloat "bicarbonate" (jget o "bicarbonate")
  let _ ← vFloat "ph" (jget o "ph")
  let _ ← vFloat "hardness" (jget o "hardness")
  let _ ← vFloat "alkalinity" (jget o "alkalinity")
  let _ ← vFloat "residualAlkalinity" (jget o "residualAlkalinity")
  pure ()

/-- Validator for `WaterAdjustment` (mineral amounts default to `0`,
`volume` is required). -/
def WaterAdjustment.model_validate (o : JObj) : Except String Unit := do
  let _ ← vFloatD "calcium" 0 (jget o "calcium")
  let _ ← vFloatD "magnesium" 0 (jget o "magnesium")
  let _ ← vFloatD "sodium" 0 (jget o "sodium")
  let _ ← vFloatD "chloride" 0 (jget o "chloride")
  let _ ← vFloatD "sulfate" 0 (jget o "sulfate")
  let _ ← vFloatD "bicarbonate" 0 (jget o "bicarbonate")
  let _ ← vFloat "volume" (jget o "volume")
  let _ ← vOptFloat "calciumChloride" (jget o "calciumChloride")
  let _ ← vOptFloat "calciumSulfate" (jget o "calciumSulfate")
  let _ ← vOptFloat "magnesiumSulfate" (jget o "magnesiumSulfate")
  let _ ← vOptFloat "sodiumChloride" (jget o "sodiumChloride")
  let _ ← vOptFloat "sodiumBicarbonate" (jget o "sodiumBicarbonate")
  pure ()

/-- Validator for `WaterSettings` (`populate_by_name = True`). -/
def WaterSettings.model_validate (o : JObj) : Except String Unit := do
  let _ ← vObj "source" WaterProfile.model_validate (jget o "source")
  let _ ← vObj "mash" WaterProfile.model_validate (jget o "mash")
  let _ ← vObj "sparge" WaterProfile.model_validate (jget o "sparge")
  let _ ← vObj "total" WaterProfile.model_validate (jget o "total")
  let _ ← vObj "mashAdjustments" WaterAdjustment.model_validate
    (jgetA o "mashAdjustments" "mash_adjustments")
  let _ ← vObj "spargeAdjustments" WaterAdjustment.model_validate
    (jgetA o "spargeAdjustments" "sparge_adjustments")
  let _ ← vObj "totalAdjustments" WaterAdjustment.model_validate
    (jgetA o "totalAdjustments" "total_adjustments")
  let _ ← vBool "enableSpargeAdjustments"
    (jgetA o "enableSpargeAdjustments" "enable_sparge_adjustments")
  let _ ← vFloat "mashPh" (jgetA o "mashPh" "mash_ph")
  let _ ← vFloat "acidPhAdjustment" (jgetA o "acidPhAdjustment" "acid_ph_adjustment")
  let _ ← vFloat "spargeAcidPhAdjustment"
    (jgetA o "spargeAcidPhAdjustment" "sparge_acid_ph_adjustment")
  pure ()

/- types/inventory.py and the four ingredient chains. -/

/-- `InventoryItem`: identity key is required but its value may be null;
`inventory` is optional (types/inventory.py). -/
structure InventoryItem where
  id : Option String
  inventory : Option ℚ
deriving Repr, DecidableEq

/-- Serialization of an optional string value (`None` → JSON null). -/
def jOptStr : Option String → Json
  | some s => .str s
  | none => .null

/-- Serialization of an optional number value (`None` → JSON null). -/
def jOptNum : Option ℚ → Json
  | some q => .num q
  | none => .null

/-- Summary fermentable (types/fermentable.py `FermentableBase`, inheriting
`InventoryItem`; `populate_by_name = True`). -/
structure FermentableBase extends InventoryItem where
  name : String
  type : String
  supplier : String
  attenuation : Option ℚ
deriving Repr, DecidableEq

def FermentableBase.model_validate (o : JObj) : Except String FermentableBase := do
  let id ← vStrNull "_id" (jgetA o "_id" "id")
  let inventory ← vOptFloat "inventory" (jget o "inventory")
  let name ← vStr "name" (jget o "name")
  let type ← vStr "type" (jget o "type")
  let supplier ← vStr "supplier" (jget o "supplier")
  let attenuation ← vOptFloat "attenuation" (jget o "attenuation")
  pure { id := id, inventory := inventory, name := name, type := type,
         supplier := supplier, attenuation := attenuation }

/-- Canonical wire form of a summary fermentable (by-alias serialization). -/
def FermentableBase.toJson (f : FermentableBase) : JObj :=
  [("_id", jOptStr f.id), ("inventory", jOptNum f.inventory),
   ("name", .str f.name), ("type", .str f.type), ("supplier", .str f.supplier),
   ("attenuation", jOptNum f.attenuation)]

/-- Validator for `FermentableDetail` (fermentable.py): summary fields, the
version envelope, then the detail fields.  `color`, `potential` and
`potentialPercentage` are declared without defaults and are required. -/
def FermentableDetail.model_validate (o : JObj) : Except String Unit := do
  let _ ← FermentableBase.model_validate o
  let _ ← VersionedModel.checkFields true o
  let _ ← vFloat "color" (jget o "color")
  let _ ← vFloat "potential" (jget o "potential")
  let _ ← vFloat "potentialPercentage" (jgetA o "potentialPercentage" "potential_percentage")
  let _ ← vOptStr "grainCategory" (jgetA o "grainCategory" "grain_category")
  let _ ← vOptStr "origin" (jget o "origin")
  let _ ← vOptStr "notes" (jget o "notes")
  let _ ← vOptFloat "ibuPerAmount" (jgetA o "ibuPerAmount" "ibu_per_amount")
  let _ ← vOptFloat "maxInBatch" (jgetA o "maxInBatch" "max_in_batch")
  let _ ← vOptBool "notFermentable" (jgetA o "notFermentable" "not_fermentable")
  let _ ← vOptFloat "acid" (jget o "acid")
  let _ ← vOptFloat "cgdb" (jget o "cgdb")
  let _ ← vOptFloat "coarseFineDiff" (jgetA o "coarseFineDiff" "coarse_fine_diff")
  let _ ← vOptFloat "fan" (jget o "fan")
  let _ ← vOptFloat "fgdb" (jget o "fgdb")
  let _ ← vOptFloat "friability" (jget o "friability")
  let _ ← vOptFloat "moisture" (jget o "moisture")
  let _ ← vOptFloat "protein" (jget o "protein")
  let _ ← vOptFloat "diastaticPower" (jgetA o "diastaticPower" "diastatic_power")
  let _ ← vStrD "substitutes" "" (jget o "substitutes")
  let _ ← vStrD "usedIn" "" (jgetA o "usedIn" "used_in")
  let _ ← vStrD "userNotes" "" (jgetA o "userNotes" "user_notes")
  let _ ← vDateNorm "bestBeforeDate" (jgetA o "bestBeforeDate" "best_before_date")
  let _ ← vDateNorm "manufacturingDate" (jgetA o "manufacturingDate" "manufacturing_date")
  let _ ← vBoolD "hidden" false (jget o "hidden")
  let _ ← vOptFloat "lovibond" (jget o "lovibond")
  let _ ← vOptFloat "costPerAmount" (jgetA o "costPerAmount" "cost_per_amount")
  pure ()

/-- Validator for `RecipeFermentable`: all `FermentableDetail` fields plus the
recipe-context fields; `amount` is required. -/
def RecipeFermentable.model_validate (o : JObj) : Except String Unit := do
  let _ ← FermentableDetail.model_validate o
  let _ ← vFloat "amount" (jget o "amount")
  let _ ← vOptFloat "percentage" (jget o "percentage")
  let _ ← vBoolD "addAfterBoil" false (jgetA o "addAfterBoil" "add_after_boil")
  pure ()

/-- Validator for `BatchFermentable`: recipe-context fields plus batch
tracking fields, all defaulted. -/
def BatchFermentable.model_validate (o : JObj) : Except String Unit := do
  let _ ← RecipeFermentable.model_validate o
  let _ ← vBoolD "checked" false (jget o "checked")
  let _ ← vBoolD "notInRecipe" false (jgetA o "notInRecipe" "not_in_recipe")
  let _ ← vBoolD "removedFromInventory" false
    (jgetA o "removedFromInventory" "removed_from_inventory")
  let _ ← vFloatD "removedAmount" 0 (jgetA o "removedAmount" "removed_amount")
  let _ ← vFloatD "totalCost" 0 (jgetA o "totalCost" "total_cost")
  let _ ← vFloatD "displayAmount" 0 (jgetA o "displayAmount" "display_amount")
  pure ()

/-- Summary hop (types/hop.py `Hop`, inheriting `HopBase` and
`InventoryItem`; `populate_by_name = True`). -/
structure Hop extends InventoryItem where
  name : String
  type : String
  alpha : ℚ
  use : Option HopUse
deriving Repr, DecidableEq

def Hop.model_validate (o : JObj) : Except String Hop := do
  let name ← vStr "name" (jget o "name")
  let type ← vStr "type" (jget o "type")
  let alpha ← vFloat "alpha" (jget o "alpha")
  let id ← vStrNull "_id" (jgetA o "_id" "id")
  let inventory ← vOptFloat "inventory" (jget o "inventory")
  let use ← vOptEnum "use" HopUse.parse (jget o "use")
  pure { name := name, type := type, alpha := alpha, id := id,
         inventory := inventory, use := use }

/-- Canonical wire form of a summary hop (by-alias serialization). -/
def Hop.toJson (h : Hop) : JObj :=
  [("_id", jOptStr h.id), ("inventory", jOptNum h.inventory),
   ("name", .str h.name), ("type", .str h.type), ("alpha", .num h.alpha),
   ("use", jOptStr (h.use.map HopUse.val))]

/-- Validator for `HopDetail` (hop.py): summary fields, the version envelope,
then detail fields, all of which carry defaults. -/
def HopDetail.model_validate (o : JObj) : Except String Unit := do
  let _ ← Hop.model_validate o
  let _ ← VersionedModel.checkFields true o
  let _ ← vOptFloat "beta" (jget o "beta")
  let _ ← vOptFloat "oil" (jget o "oil")
  let _ ← vOptFloat "myrcene" (jget o "myrcene")
  let _ ← vOptFloat "caryophyllene" (jget o "caryophyllene")
  let _ ← vOptFloat "humulene" (jget o "humulene")
  let _ ← vOptFloat "farnesene" (jget o "farnesene")
  let _ ← vOptFloat "cohumulone" (jget o "cohumulone")
  let _ ← vOptFloat "hsi" (jget o "hsi")
  let _ ← vOptStr "origin" (jget o "origin")
  let _ ← vOptInt "year" (jget o "year")
  let _ ← vOptStr "usage" (jget o "usage")
  let _ ← vStrD "notes" "" (jget o "notes")
  let _ ← vStrD "substitutes" "" (jget o "substitutes")
  let _ ← vStrD "usedIn" "" (jgetA o "usedIn" "used_in")
  let _ ← vStrD "userNotes" "" (jgetA o "userNotes" "user_notes")
  let _ ← vDateNorm "bestBeforeDate" (jgetA o "bestBeforeDate" "best_before_date")
  let _ ← vDateNorm "manufacturingDate" (jgetA o "manufacturingDate" "manufacturing_date")
  let _ ← vOptStr "lotNumber" (jgetA o "lotNumber" "lot_number")
  let _ ← vBoolD "hidden" false (jget o "hidden")
  let _ ← vOptFloat "amount" (jget o "amount")
  let _ ← vOptInt "time" (jget o "time")
  let _ ← vOptFloat "temp" (jget o "temp")
  let _ ← vFloatD "ibu" 0 (jget o "ibu")
  pure ()

/-- Validator for `RecipeHop` (hop.py): extends only `HopBase`; `amount`,
`time` and `use` are required; `id` is optional and nullable. -/
def RecipeHop.model_validate (o : JObj) : Except String Unit := do
  let _ ← vStr "name" (jget o "name")
  let _ ← vStr "type" (jget o "type")
  let _ ← vFloat "alpha" (jget o "alpha")
  let _ ← vFloat "amount" (jget o "amount")
  let _ ← vInt "time" (jget o "time")
  let _ ← vEnum "use" HopUse.parse (jget o "use")
  let _ ← vFloatD "ibu" 0 (jget o "ibu")
  let _ ← vOptFloat "beta" (jget o "beta")
  let _ ← vOptFloat "temp" (jget o "temp")
  let _ ← vOptStr "origin" (jget o "origin")
  let _ ← vOptInt "actualTime" (jgetA o "actualTime" "actual_time")
  let _ ← vOptStr "timeUnit" (jgetA o "timeUnit" "time_unit")
  let _ ← vOptInt "day" (jget o "day")
  let _ ← vOptFloat "oil" (jget o "oil")
  let _ ← vOptFloat "myrcene" (jget o "myrcene")
  let _ ← vOptFloat "caryophyllene" (jget o "caryophyllene")
  let _ ← vOptFloat "humulene" (jget o "humulene")
  let _ ← vOptFloat "farnesene" (jget o "farnesene")
  let _ ← vOptFloat "cohumulone" (jget o "cohumulone")
  let _ ← vOptFloat "hsi" (jget o "hsi")
  let _ ← vOptStr "usage" (jget o "usage")
  let _ ← vOptInt "year" (jget o "year")
  let _ ← vOptStr "notes" (jget o "notes")
  let _ ← vOptStr "userNotes" (jgetA o "userNotes" "user_notes")
  let _ ← vOptStr "substitutes" (jget o "substitutes")
  let _ ← vOptStr "usedIn" (jgetA o "usedIn" "used_in")
  let _ ← vOptStr "bestBeforeDate" (jgetA o "bestBeforeDate" "best_before_date")
  let _ ← vOptStr "manufacturingDate" (jgetA o "manufacturingDate" "manufacturing_date")
  let _ ← vOptFloat "inventory" (jget o "inventory")
  let _ ← vBoolD "hidden" false (jget o "hidden")
  let _ ← vOptStr "_id" (jgetA o "_id" "id")
  pure ()

/-- Validator for `BatchHop`: recipe-context fields plus batch tracking. -/
def BatchHop.model_validate (o : JObj) : Except String Unit := do
  let _ ← RecipeHop.model_validate o
  let _ ← vFloatD "displayAmount" 0 (jgetA o "displayAmount" "display_amount")
  let _ ← vFloatD "totalCost" 0 (jgetA o "totalCost" "total_cost")
  let _ ← vOptFloat "costPerAmount" (jgetA o "costPerAmount" "cost_per_amount")
  let _ ← vBoolD "notInRecipe" false (jgetA o "notInRecipe" "not_in_recipe")
  let _ ← vBoolD "removedFromInventory" false
    (jgetA o "removedFromInventory" "removed_from_inventory")
  let _ ← vFloatD "removedAmount" 0 (jgetA o "removedAmount" "removed_amount")
  let _ ← vBoolD "checked" false (jget o "checked")
  pure ()

/-- Summary yeast (types/yeast.py `Yeast`, inheriting `YeastBase` and
`InventoryItem`; `populate_by_name = True`). -/
structure Yeast extends InventoryItem where
  name : String
  type : String
  attenuation : Option ℚ
  form : Option YeastForm
deriving Repr, DecidableEq

def Yeast.model_validate (o : JObj) : Except String Yeast := do
  let name ← vStr "name" (jget o "name")
  let type ← vStr "type" (jget o "type")
  let attenuation ← vOptFloat "attenuation" (jget o "attenuation")
  let id ← vStrNull "_id" (jgetA o "_id" "id")
  let inventory ← vOptFloat "inventory" (jget o "inventory")
  let form ← vOptEnum "form" YeastForm.parse (jget o "form")
  pure { name := name, type := type, attenuation := attenuation, id := id,
         inventory := inventory, form := form }

/-- Canonical wire form of a summary yeast (by-alias serialization). -/
def Yeast.toJson (y : Yeast) : JObj :=
  [("_id", jOptStr y.id), ("inventory", jOptNum y.inventory),
   ("name", .str y.name), ("type", .str y.type),
   ("attenuation", jOptNum y.attenuation),
   ("form", jOptStr (y.form.map YeastForm.val))]

/-- Validator for `YeastDetail` (yeast.py): summary fields, the version
envelope, then detail fields.  `laboratory` is declared without a default and
is required. -/
def YeastDetail.model_validate (o : JObj) : Except String Unit := do
  let _ ← Yeast.model_validate o
  let _ ← VersionedModel.checkFields true o
  let _ ← vStr "laboratory" (jget o "laboratory")
  let _ ← vOptStr "productId" (jgetA o "productId" "product_id")
  let _ ← vOptStr "lotNumber" (jgetA o "lotNumber" "lot_number")
  let _ ← vOptInt "minAttenuation" (jgetA o "minAttenuation" "min_attenuation")
  let _ ← vOptInt "maxAttenuation" (jgetA o "maxAttenuation" "max_attenuation")
  let _ ← vOptFloat "minTemp" (jgetA o "minTemp" "min_temp")
  let _ ← vOptFloat "maxTemp" (jgetA o "maxTemp" "max_temp")
  let _ ← vOptInt "maxAbv" (jgetA o "maxAbv" "max_abv")
  let _ ← vOptInt "ageRate" (jgetA o "ageRate" "age_rate")
  let _ ← vOptEnum "form" YeastForm.parse (jget o "form")
  let _ ← vOptStr "flocculation" (jget o "flocculation")
  let _ ← vOptInt "cellsPerPkg" (jgetA o "cellsPerPkg" "cells_per_pkg")
  let _ ← vBoolD "fermentsAll" false (jgetA o "fermentsAll" "ferments_all")
  let _ ← vOptStr "description" (jget o "description")
  let _ ← vOptStr "unit" (jget o "unit")
  let _ ← vOptFloat "amount" (jget o "amount")
  let _ ← vOptFloat "costPerAmount" (jgetA o "costPerAmount" "cost_per_amount")
  let _ ← vDateNorm "bestBeforeDate" (jgetA o "bestBeforeDate" "best_before_date")
  let _ ← vDateNorm "manufacturingDate" (jgetA o "manufacturingDate" "manufacturing_date")
  let _ ← vStrD "userNotes" "" (jgetA o "userNotes" "user_notes")
  let _ ← vBoolD "hidden" false (jget o "hidden")
  pure ()

/-- Validator for `RecipeYeast` (yeast.py): extends only `YeastBase`;
`amount` is required, `laboratory` defaults to the empty string, `id` is
optional and nullable. -/
def RecipeYeast.model_validate (o : JObj) : Except String Unit := do
  let _ ← vStr "name" (jget o "name")
  let _ ← vStr "type" (jget o "type")
  let _ ← vOptFloat "attenuation" (jget o "attenuation")
  let _ ← vFloat "amount" (jget o "amount")
  let _ ← vStrD "laboratory" "" (jget o "laboratory")
  let _ ← vOptStr "productId" (jgetA o "productId" "product_id")
  let _ ← vOptEnum "form" YeastForm.parse (jget o "form")
  let _ ← vOptStr "unit" (jget o "unit")
  let _ ← vOptStr "description" (jget o "description")
  let _ ← vOptInt "minAttenuation" (jgetA o "minAttenuation" "min_attenuation")
  let _ ← vOptInt "maxAttenuation" (jgetA o "maxAttenuation" "max_attenuation")
  let _ ← vOptFloat "minTemp" (jgetA o "minTemp" "min_temp")
  let _ ← vOptFloat "maxTemp" (jgetA o "maxTemp" "max_temp")
  let _ ← vOptInt "maxAbv" (jgetA o "maxAbv" "max_abv")
  let _ ← vOptStr "flocculation" (jget o "flocculation")
  let _ ← vBoolD "fermentsAll" false (jgetA o "fermentsAll" "ferments_all")
  let _ ← vDateNorm "bestBeforeDate" (jgetA o "bestBeforeDate" "best_before_date")
  let _ ← vDateNorm "manufacturingDate" (jgetA o "manufacturingDate" "manufacturing_date")
  let _ ← vOptStr "userNotes" (jgetA o "userNotes" "user_notes")
  let _ ← vOptBool "starter" (jget o "starter")
  let _ ← vOptFloat "starterSize" (jgetA o "starterSize" "starter_size")
  let _ ← vOptFloat "starterGramExtract" (jgetA o "starterGramExtract" "starter_gram_extract")
  let _ ← vOptFloat "inventory" (jget o "inventory")
  let _ ← vBoolD "hidden" false (jget o "hidden")
  let _ ← vOptStr "_id" (jgetA o "_id" "id")
  let _ ← vOptStr "_parent" (jgetA o "_parent" "parent")
  pure ()

/-- Validator for `BatchYeast`: recipe-context fields plus batch tracking. -/
def BatchYeast.model_validate (o : JObj) : Except String Unit := do
  let _ ← RecipeYeast.model_validate o
  let _ ← vFloatD "displayAmount" 0 (jgetA o "displayAmount" "display_amount")
  let _ ← vFloatD "totalCost" 0 (jgetA o "totalCost" "total_cost")
  let _ ← vOptFloat "costPerAmount" (jgetA o "costPerAmount" "cost_per_amount")
  let _ ← vBoolD "notInRecipe" false (jgetA o "notInRecipe" "not_in_recipe")
  let _ ← vOptStr "inventoryUnit" (jgetA o "inventoryUnit" "inventory_unit")
  pure ()

/-- Value of the permissive union `MiscType | str` of `MiscBase.type`: a
member of the enum, or the raw string preserved. -/
inductive MiscTypeVal where
  | known (t : MiscType)
  | raw (s : String)
deriving Repr, DecidableEq

/-- Field check for `MiscType | str | None = None` (smart union, enum
first). -/
def vMiscType (fld : String) : Option Json → Except String (Option MiscTypeVal)
  | none => .ok none
  | some .null => .ok none
  | some (.str s) =>
    match MiscType.parse s with
    | some t => .ok (some (.known t))
    | none => .ok (some (.raw s))
  | _ => .error fld

/-- Summary misc item (types/misc.py `Misc`, inheriting `MiscBase` and
`InventoryItem`; `populate_by_name = True`). -/
structure Misc extends InventoryItem where
  name : String
  type : Option MiscTypeVal
  use : Option MiscUse
  notes : Option String
deriving Repr, DecidableEq

def Misc.model_validate (o : JObj) : Except String Misc := do
  let name ← vStr "name" (jget o "name")
  let type ← vMiscType "type" (jget o "type")
  let id ← vStrNull "_id" (jgetA o "_id" "id")
  let inventory ← vOptFloat "inventory" (jget o "inventory")
  let use ← vOptEnum "use" MiscUse.parse (jget o "use")
  let notes ← vOptStr "notes" (jget o "notes")
  pure { name := name, type := type, id := id, inventory := inventory,
         use := use, notes := notes }

/-- Serialization of the `MiscBase.type` union value. -/
def MiscTypeVal.toJson : Option MiscTypeVal → Json
  | some (.known t) => .str t.val
  | some (.raw s) => .str s
  | none => .null

/-- Canonical wire form of a summary misc item (by-alias serialization). -/
def Misc.toJson (m : Misc) : JObj :=
  [("_id", jOptStr m.id), ("inventory", jOptNum m.inventory),
   ("name", .str m.name), ("type", MiscTypeVal.toJson m.type),
   ("use", jOptStr (m.use.map MiscUse.val)), ("notes", jOptStr m.notes)]

/-- Validator for `MiscDetail` (misc.py): summary fields, the version
envelope, then detail fields, all of which carry defaults. -/
def MiscDetail.model_validate (o : JObj) : Except String Unit := do
  let _ ← Misc.model_validate o
  let _ ← VersionedModel.checkFields true o
  let _ ← vOptEnum "use" MiscUse.parse (jget o "use")
  let _ ← vOptInt "time" (jget o "time")
  let _ ← vBoolD "timeIsDays" false (jgetA o "timeIsDays" "time_is_days")
  let _ ← vOptFloat "amountPerL" (jgetA o "amountPerL" "amount_per_l")
  let _ ← vOptFloat "concentration" (jget o "concentration")
  let _ ← vBoolD "waterAdjustment" false (jgetA o "waterAdjustment" "water_adjustment")
  let _ ← vOptStr "useFor" (jgetA o "useFor" "use_for")
  let _ ← vOptStr "substitutes" (jget o "substitutes")
  let _ ← vOptStr "userNotes" (jgetA o "userNotes" "user_notes")
  let _ ← vDateNorm "bestBeforeDate" (jgetA o "bestBeforeDate" "best_before_date")
  let _ ← vDateNorm "manufacturingDate" (jgetA o "manufacturingDate" "manufacturing_date")
  let _ ← vBoolD "hidden" false (jget o "hidden")
  let _ ← vOptStr "unit" (jget o "unit")
  pure ()

/-- Validator for `RecipeMisc` (misc.py): extends only `MiscBase`; `amount`
and `use` are required; `id` is optional and nullable. -/
def RecipeMisc.model_validate (o : JObj) : Except String Unit := do
  let _ ← vStr "name" (jget o "name")
  let _ ← vMiscType "type" (jget o "type")
  let _ ← vFloat "amount" (jget o "amount")
  let _ ← vEnum "use" MiscUse.parse (jget o "use")
  let _ ← vOptStr "unit" (jget o "unit")
  let _ ← vOptInt "time" (jget o "time")
  let _ ← vBoolD "timeIsDays" false (jgetA o "timeIsDays" "time_is_days")
  let _ ← vOptFloat "amountPerL" (jgetA o "amountPerL" "amount_per_l")
  let _ ← vOptFloat "concentration" (jget o "concentration")
  let _ ← vBoolD "waterAdjustment" false (jgetA o "waterAdjustment" "water_adjustment")
  let _ ← vOptStr "useFor" (jgetA o "useFor" "use_for")
  let _ ← vOptStr "notes" (jget o "notes")
  let _ ← vOptStr "substitutes" (jget o "substitutes")
  let _ ← vOptStr "userNotes" (jgetA o "userNotes" "user_notes")
  let _ ← vOptStr "bestBeforeDate" (jgetA o "bestBeforeDate" "best_before_date")
  let _ ← vOptStr "manufacturingDate" (jgetA o "manufacturingDate" "manufacturing_date")
  let _ ← vOptFloat "inventory" (jget o "inventory")
  let _ ← vBoolD "hidden" false (jget o "hidden")
  let _ ← vOptStr "_id" (jgetA o "_id" "id")
  pure ()

/-- Validator for `BatchMisc`: recipe-context fields plus batch tracking. -/
def BatchMisc.model_validate (o : JObj) : Except String Unit := do
  let _ ← RecipeMisc.model_validate o
  let _ ← vFloatD "displayAmount" 0 (jgetA o "displayAmount" "display_amount")
  let _ ← vFloatD "totalCost" 0 (jgetA o "totalCost" "total_cost")
  let _ ← vOptFloat "costPerAmount" (jgetA o "costPerAmount" "cost_per_amount")
  let _ ← vBoolD "notInRecipe" false (jgetA o "notInRecipe" "not_in_recipe")
  let _ ← vOptStr "inventoryUnit" (jgetA o "inventoryUnit" "inventory_unit")
  pure ()

/- types/recipe.py. -/

/-- Validator for `RecipeStyle` (name only). -/
def RecipeStyle.model_validate (o : JObj) : Except String Unit := do
  let _ ← vStr "name" (jget o "name")
  pure ()

/-- Validator for `RecipeStyleDetail` (no `populate_by_name`). -/
def RecipeStyleDetail.model_validate (o : JObj) : Except String Unit := do
  let _ ← vStr "name" (jget o "name")
  let _ ← vStr "category" (jget o "category")
  let _ ← vStr "type" (jget o "type")
  let _ ← vFloat "ibuMin" (jget o "ibuMin")
  let _ ← vFloat "ibuMax" (jget o "ibuMax")
  let _ ← vFloat "abvMin" (jget o "abvMin")
  let _ ← vFloat "abvMax" (jget o "abvMax")
  let _ ← vFloat "ogMin" (jget o "ogMin")
  let _ ← vFloat "ogMax" (jget o "ogMax")
  let _ ← vFloat "fgMin" (jget o "fgMin")
  let _ ← vFloat "fgMax" (jget o "fgMax")
  let _ ← vFloat "colorMin" (jget o "colorMin")
  let _ ← vFloat "colorMax" (jget o "colorMax")
  let _ ← vOptStr "styleGuide" (jget o "styleGuide")
  let _ ← vOptStr "notes" (jget o "notes")
  let _ ← vOptStr "profile" (jget o "profile")
  let _ ← vOptStr "ingredients" (jget o "ingredients")
  let _ ← vOptStr "examples" (jget o "examples")
  pure ()

/-- Validator for `Recipe` (summary recipe, `populate_by_name = True`):
`name` and a non-null `_id` are required. -/
def Recipe.model_validate (o : JObj) : Except String Unit := do
  let _ ← vStr "name" (jget o "name")
  let _ ← vStr "_id" (jgetA o "_id" "id")
  let _ ← vOptStr "author" (jget o "author")
  let _ ← vOptEnum "type" RecipeType.parse (jget o "type")
  let _ ← vOptObj "equipment" EquipmentProfile.model_validate (jget o "equipment")
  let _ ← vOptObj "style" RecipeStyle.model_validate (jget o "style")
  pure ()

/-- Validator for `RecipeDetail` (recipe.py): summary fields plus the full
optional field set; every added field carries a default, so a payload with
just `name` and `_id` validates. -/
def RecipeDetail.model_validate (o : JObj) : Except String Unit := do
  let _ ← vStr "name" (jget o "name")
  let _ ← vStr "_id" (jgetA o "_id" "id")
  let _ ← vOptStr "author" (jget o "author")
  let _ ← vOptEnum "type" RecipeType.parse (jget o "type")
  let _ ← vOptFloat "batchSize" (jgetA o "batchSize" "batch_size")
  let _ ← vOptFloat "boilSize" (jgetA o "boilSize" "boil_size")
  let _ ← vOptInt "boilTime" (jgetA o "boilTime" "boil_time")
  let _ ← vOptFloat "efficiency" (jget o "efficiency")
  let _ ← vOptFloat "mashEfficiency" (jgetA o "mashEfficiency" "mash_efficiency")
  let _ ← vOptFloat "og" (jget o "og")
  let _ ← vOptFloat "fg" (jget o "fg")
  let _ ← vOptFloat "ibu" (jget o "ibu")
  let _ ← vOptFloat "color" (jget o "color")
  let _ ← vOptFloat "abv" (jget o "abv")
  let _ ← vOptFloat "ogPlato" (jgetA o "ogPlato" "og_plato")
  let _ ← vOptFloat "postBoilGravity" (jgetA o "postBoilGravity" "post_boil_gravity")
  let _ ← vOptFloat "preBoilGravity" (jgetA o "preBoilGravity" "pre_boil_gravity")
  let _ ← vOptFloat "attenuation" (jget o "attenuation")
  let _ ← vOptUnion2 "style" RecipeStyle.model_validate RecipeStyleDetail.model_validate
    (jget o "style")
  let _ ← vListD "fermentables" RecipeFermentable.model_validate (jget o "fermentables")
  let _ ← vListD "hops" RecipeHop.model_validate (jget o "hops")
  let _ ← vListD "yeasts" RecipeYeast.model_validate (jget o "yeasts")
  let _ ← vListD "miscs" RecipeMisc.model_validate (jget o "miscs")
  let _ ← vOptObj "mash" MashSchedule.model_validate (jget o "mash")
  let _ ← vOptObj "water" WaterSettings.model_validate (jget o "water")
  let _ ← vOptObj "fermentation" FermentationSchedule.model_validate (jget o "fermentation")
  let _ ← vOptUnion2 "equipment" EquipmentProfile.model_validate
    EquipmentProfileDetail.model_validate (jget o "equipment")
  let _ ← vListD "boilSteps" BoilStep.model_validate (jgetA o "boilSteps" "boil_steps")
  let _ ← vOptInt "mashStepsCount" (jgetA o "mashStepsCount" "mash_steps_count")
  let _ ← vOptInt "boilStepsCount" (jgetA o "boilStepsCount" "boil_steps_count")
  let _ ← vOptStr "notes" (jget o "notes")
  let _ ← vOptStrList "tags" (jget o "tags")
  let _ ← vOptBool "public" (jget o "public")
  let _ ← vBoolD "hidden" false (jget o "hidden")
  let _ ← vStrListD "searchTags" (jgetA o "searchTags" "search_tags")
  let _ ← vOptStr "_version" (jgetA o "_version" "version")
  let _ ← vOptObj "_created" Timestamp.model_validate (jgetA o "_created" "created")
  let _ ← vOptObj "_timestamp" Timestamp.model_validate (jgetA o "_timestamp" "timestamp")
  let _ ← vOptInt "_timestamp_ms" (jgetA o "_timestamp_ms" "timestamp_ms")
  let _ ← vOptStr "_rev" (jgetA o "_rev" "rev")
  let _ ← vOptStr "_uid" (jgetA o "_uid" "uid")
  let _ ← vOptFloat "_ev" (jgetA o "_ev" "ev")
  let _ ← vStrD "_type" "recipe" (jgetA o "_type" "type_field")
  let _ ← vBoolD "_init" false (jgetA o "_init" "init")
  let _ ← vOptStr "_share" (jgetA o "_share" "share")
  let _ ← vOptBool "_public" (jgetA o "_public" "public_flag")
  let _ ← vOptDict "defaults" (jget o "defaults")
  let _ ← vOptDict "nutrition" (jget o "nutrition")
  let _ ← vOptFloat "totalGravity" (jgetA o "totalGravity" "total_gravity")
  let _ ← vOptFloat "firstWortGravity" (jgetA o "firstWortGravity" "first_wort_gravity")
  let _ ← vOptDict "data" (jget o "data")
  let _ ← vOptFloat "fermentablesTotalAmount"
    (jgetA o "fermentablesTotalAmount" "fermentables_total_amount")
  let _ ← vOptFloat "hopsTotalAmount" (jgetA o "hopsTotalAmount" "hops_total_amount")
  let _ ← vOptEnum "ibuFormula" IbuFormula.parse (jgetA o "ibuFormula" "ibu_formula")
  let _ ← vOptEnum "fgFormula" FgFormula.parse (jgetA o "fgFormula" "fg_formula")
  let _ ← vOptFloat "carbonation" (jget o "carbonation")
  let _ ← vOptBool "styleConformity" (jgetA o "styleConformity" "style_conformity")
  let _ ← vOptFloat "buGuRatio" (jgetA o "buGuRatio" "bu_gu_ratio")
  let _ ← vOptFloat "rbRatio" (jgetA o "rbRatio" "rb_ratio")
  let _ ← vOptFloat "sumDryHopPerLiter" (jgetA o "sumDryHopPerLiter" "sum_dry_hop_per_liter")
  let _ ← vOptFloat "avgWeightedHopstandTemp"
    (jgetA o "avgWeightedHopstandTemp" "avg_weighted_hopstand_temp")
  let _ ← vOptFloat "diastaticPower" (jgetA o "diastaticPower" "diasmatic_power")
  let _ ← vOptFloat "primaryTemp" (jgetA o "primaryTemp" "primary_temp")
  let _ ← vOptFloat "fermentableIbu" (jgetA o "fermentableIbu" "fermentable_ibu")
  let _ ← vOptFloat "extraGravity" (jgetA o "extraGravity" "extra_gravity")
  let _ ← vOptStr "path" (jget o "path")
  let _ ← vOptFloat "yeastToleranceExceededBy"
    (jgetA o "yeastToleranceExceededBy" "yeast_tolerance_exceeded_by")
  let _ ← vOptBool "manualFg" (jgetA o "manualFg" "manual_fg")
  let _ ← vOptInt "hopStandMinutes" (jgetA o "hopStandMinutes" "hop_stand_minutes")
  let _ ← vOptDict "carbonationStyle" (jgetA o "carbonationStyle" "carbonation_style")
  pure ()

/- types/batch.py. -/

/-- Validator for `BatchMeasurement`. -/
def BatchMeasurement.model_validate (o : JObj) : Except String Unit := do
  let _ ← vStr "type" (jget o "type")
  let _ ← vFloat "value" (jget o "value")
  let _ ← vStr "unit" (jget o "unit")
  let _ ← vDatetime "time" (jget o "time")
  let _ ← vOptStr "comment" (jget o "comment")
  pure ()

/-- Validator for `BatchNote`. -/
def BatchNote.model_validate (o : JObj) : Except String Unit := do
  let _ ← vStr "note" (jget o "note")
  let _ ← vOptStr "type" (jget o "type")
  let _ ← vInt "timestamp" (jget o "timestamp")
  pure ()

/-- Batch summary (types/batch.py `Batch`): a plain `BaseModel` without
`populate_by_name`, so only the upstream aliases are accepted.
`recipe_name` reads the nested path `recipe → name` and is required;
`status` defaults to `Planning`. -/
structure Batch where
  name : String
  id : String
  batch_no : Int
  brew_date : Option Int
  status : BatchStatus
  brewer : Option String
  recipe_name : String
deriving Repr, DecidableEq

def Batch.model_validate (o : JObj) : Except String Batch := do
  let name ← vStr "name" (jget o "name")
  let id ← vStr "_id" (jget o "_id")
  let batch_no ← vInt "batchNo" (jget o "batchNo")
  let brew_date ← vOptInt "brewDate" (jget o "brewDate")
  let status ← vEnumD "status" BatchStatus.parse .planning (jget o "status")
  let brewer ← vOptStr "brewer" (jget o "brewer")
  let recipe_name ← vStr "recipe_name" (jget2 o "recipe" "name")
  pure { name := name, id := id, batch_no := batch_no, brew_date := brew_date,
         status := status, brewer := brewer, recipe_name := recipe_name }

/-- Nested `recipe → name` lookup as run inside `BatchDetail`
(`populate_by_name = True` there allows the plain field name as fallback). -/
def jgetRecipeName (o : JObj) : Option Json :=
  match jget2 o "recipe" "name" with
  | some v => some v
  | none => jget o "recipe_name"

/-- Validator for `BatchDetail` (batch.py): the `Batch` summary fields
(revalidated under `populate_by_name = True`), the version envelope, and the
batch detail fields.  The embedded `recipe` object is required and must
validate as a full `RecipeDetail`. -/
def BatchDetail.model_validate (o : JObj) : Except String Unit := do
  let _ ← vStr "name" (jget o "name")
  let _ ← vStr "_id" (jgetA o "_id" "id")
  let _ ← vInt "batchNo" (jgetA o "batchNo" "batch_no")
  let _ ← vOptInt "brewDate" (jgetA o "brewDate" "brew_date")
  let _ ← vEnumD "status" BatchStatus.parse .planning (jget o "status")
  let _ ← vOptStr "brewer" (jget o "brewer")
  let _ ← vStr "recipe_name" (jgetRecipeName o)
  let _ ← VersionedModel.checkFields true o
  let _ ← vOptStr "recipeId" (jgetA o "recipeId" "recipe_id")
  let _ ← vListD "measurements" BatchMeasurement.model_validate (jget o "measurements")
  let _ ← vListD "notes" BatchNote.model_validate (jget o "notes")
  let _ ← vAnyListD "measurementDevices"
    (jgetA o "measurementDevices" "measurement_devices")
  let _ ← vStrListD "tags" (jget o "tags")
  let _ ← vBoolD "brewed" false (jget o "brewed")
  let _ ← vOptFloat "og" (jget o "og")
  let _ ← vOptFloat "fg" (jget o "fg")
  let _ ← vOptFloat "abv" (jget o "abv")
  let _ ← vOptDatetime "bottlingDate" (jgetA o "bottlingDate" "bottling_date")
  let _ ← vOptEnum "carbonationType" CarbonationType.parse
    (jgetA o "carbonationType" "carbonation_type")
  let _ ← vOptFloat "carbonationLevel" (jgetA o "carbonationLevel" "carbonation_level")
  let _ ← vOptDatetime "fermentationStartDate"
    (jgetA o "fermentationStartDate" "fermentation_start_date")
  let _ ← vOptDatetime "fermentationEndDate"
    (jgetA o "fermentationEndDate" "fermentation_end_date")
  let _ ← vObj "recipe" RecipeDetail.model_validate (jget o "recipe")
  let _ ← vAnyListD "events" (jget o "events")
  let _ ← vDictD "devices" (jget o "devices")
  let _ ← vOptFloat "measuredOg" (jgetA o "measuredOg" "measured_og")
  let _ ← vOptFloat "measuredFg" (jgetA o "measuredFg" "measured_fg")
  let _ ← vOptFloat "measuredAbv" (jgetA o "measuredAbv" "measured_abv")
  let _ ← vOptFloat "measuredAttenuation"
    (jgetA o "measuredAttenuation" "measured_attenuation")
  let _ ← vOptFloat "measuredEfficiency"
    (jgetA o "measuredEfficiency" "measured_efficiency")
  let _ ← vOptFloat "measuredMashEfficiency"
    (jgetA o "measuredMashEfficiency" "measured_mash_efficiency")
  let _ ← vOptFloat "measuredKettleEfficiency"
    (jgetA o "measuredKettleEfficiency" "measured_kettle_efficiency")
  let _ ← vOptFloat "measuredConversionEfficiency"
    (jgetA o "measuredConversionEfficiency" "measured_conversion_efficiency")
  let _ ← vOptFloat "measuredPreBoilGravity"
    (jgetA o "measuredPreBoilGravity" "measured_pre_boil_gravity")
  let _ ← vOptFloat "measuredPostBoilGravity"
    (jgetA o "measuredPostBoilGravity" "measured_post_boil_gravity")
  let _ ← vOptFloat "measuredFirstWortGravity"
    (jgetA o "measuredFirstWortGravity" "measured_first_wort_gravity")
  let _ ← vOptFloat "measuredBatchSize" (jgetA o "measuredBatchSize" "measured_batch_size")
  let _ ← vOptFloat "measuredBoilSize" (jgetA o "measuredBoilSize" "measured_boil_size")
  let _ ← vOptFloat "measuredBottlingSize"
    (jgetA o "measuredBottlingSize" "measured_bottling_size")
  let _ ← vOptFloat "measuredFermenterTopUp"
    (jgetA o "measuredFermenterTopUp" "measured_fermenter_top_up")
  let _ ← vOptFloat "measuredKettleSize"
    (jgetA o "measuredKettleSize" "measured_kettle_size")
  let _ ← vOptFloat "measuredMashPh" (jgetA o "measuredMashPh" "measured_mash_ph")
  let _ ← vOptFloat "estimatedOg" (jgetA o "estimatedOg" "estimated_og")
  let _ ← vOptFloat "estimatedFg" (jgetA o "estimatedFg" "estimated_fg")
  let _ ← vOptFloat "estimatedIbu" (jgetA o "estimatedIbu" "estimated_ibu")
  let _ ← vOptFloat "estimatedColor" (jgetA o "estimatedColor" "estimated_color")
  let _ ← vOptFloat "estimatedAbv" (jgetA o "estimatedAbv" "estimated_abv")
  let _ ← vOptFloat "estimatedTotalGravity"
    (jgetA o "estimatedTotalGravity" "estimated_total_gravity")
  let _ ← vOptFloat "estimatedBuGuRatio"
    (jgetA o "estimatedBuGuRatio" "estimated_bu_gu_ratio")
  let _ ← vOptFloat "estimatedRbRatio" (jgetA o "estimatedRbRatio" "estimated_rb_ratio")
  let _ ← vListD "batchFermentables" BatchFermentable.model_validate
    (jgetA o "batchFermentables" "batch_fermentables")
  let _ ← vListD "batchHops" BatchHop.model_validate (jgetA o "batchHops" "batch_hops")
  let _ ← vListD "batchYeasts" BatchYeast.model_validate
    (jgetA o "batchYeasts" "batch_yeasts")
  let _ ← vListD "batchMiscs" BatchMisc.model_validate (jgetA o "batchMiscs" "batch_miscs")
  let _ ← vListD "batchFermentablesLocal" BatchFermentable.model_validate
    (jgetA o "batchFermentablesLocal" "batch_fermentables_local")
  let _ ← vListD "batchHopsLocal" BatchHop.model_validate
    (jgetA o "batchHopsLocal" "batch_hops_local")
  let _ ← vListD "batchYeastsLocal" BatchYeast.model_validate
    (jgetA o "batchYeastsLocal" "batch_yeasts_local")
  let _ ← vListD "batchMiscsLocal" BatchMisc.model_validate
    (jgetA o "batchMiscsLocal" "batch_miscs_local")
  let _ ← vBoolD "brewControllerEnabled" false
    (jgetA o "brewControllerEnabled" "brew_controller_enabled")
  let _ ← vBoolD "fermentationControllerEnabled" false
    (jgetA o "fermentationControllerEnabled" "fermentation_controller_enabled")
  let _ ← vOptInt "mashStepsCount" (jgetA o "mashStepsCount" "mash_steps_count")
  let _ ← vOptInt "boilStepsCount" (jgetA o "boilStepsCount" "boil_steps_count")
  let _ ← vListD "boilSteps" BoilStep.model_validate (jgetA o "boilSteps" "boil_steps")
  let _ ← vBoolD "hidden" false (jget o "hidden")
  let _ ← vBoolD "_archived" false (jgetA o "_archived" "archived")
  let _ ← vBoolD "_init" false (jgetA o "_init" "init")
  let _ ← vBoolD "hideBatchEvents" false (jgetA o "hideBatchEvents" "hide_batch_events")
  let _ ← vOptFloat "primingSugarEquiv" (jgetA o "primingSugarEquiv" "priming_sugar_equiv")
  let _ ← vOptFloat "carbonationForce" (jgetA o "carbonationForce" "carbonation_force")
  let _ ← vBoolD "bottlingDateSet" false (jgetA o "bottlingDateSet" "bottling_date_set")
  let _ ← vBoolD "fermentationStartDateSet" false
    (jgetA o "fermentationStartDateSet" "fermentation_start_date_set")
  let _ ← vDictD "cost" (jget o "cost")
  let _ ← vBoolD "_shared" false (jgetA o "_shared" "shared")
  let _ ← vOptStr "_share" (jgetA o "_share" "share")
  let _ ← vStrD "_type" "batch" (jgetA o "_type" "type_field")
  pure ()

/- src/brewfather_mcp/api.py. -/

def BASE_URL : String := "https://api.brewfather.app/v2"

/-- Python truthiness of an `bool | None` attribute: only `True` is truthy. -/
def pyTruthyOptBool : Option Bool → Bool
  | some b => b
  | none => false

/-- Python truthiness of an `int | None` attribute: `None` and `0` are falsy. -/
def pyTruthyOptInt : Option Int → Bool
  | some n => decide (n ≠ 0)
  | none => false

/-- Python truthiness of a `str | None` attribute: `None` and `""` are falsy. -/
def pyTruthyOptStr : Option String → Bool
  | some s => decide (s ≠ "")
  | none => false

/-- Python `f"{b}"` rendering of a `bool`. -/
def pyStrBool : Bool → String
  | true => "True"
  | false => "False"

/-- Python `f"{x}"` rendering of an optional string, as applied to the result
of `as_query_param_str` inside `_build_url`: `None` renders as `"None"`. -/
def pyStrOptStr : Option String → String
  | some s => s
  | none => "None"

/-- Whether a byte is kept verbatim by `urllib.parse.quote_plus`
(unreserved: ALPHA / DIGIT / `_` / `.` / `-` / `~`). -/
def quoteSafeByte (b : UInt8) : Bool :=
  (65 ≤ b.toNat && b.toNat ≤ 90) || (97 ≤ b.toNat && b.toNat ≤ 122) ||
  (48 ≤ b.toNat && b.toNat ≤ 57) || b.toNat = 95 || b.toNat = 46 ||
  b.toNat = 45 || b.toNat = 126

def hexDigit (n : Nat) : Char :=
  if n < 10 then Char.ofNat (48 + n) else Char.ofNat (55 + n)

/-- `urllib.parse.quote_plus`: spaces become `+`, unreserved bytes pass
through, every other UTF-8 byte is percent-encoded. -/
def quote_plus (s : String) : String :=
  (s.toUTF8.toList.map fun b =>
    if b.toNat = 32 then "+"
    else if quoteSafeByte b then String.mk [Char.ofNat b.toNat]
    else String.mk ['%', hexDigit (b.toNat / 16), hexDigit (b.toNat % 16)]).foldl
    (· ++ ·) ""

/-- Query specification (api.py `ListQueryParams`): every attribute defaults
to `None`. -/
structure ListQueryParams where
  inventory_negative : Option Bool := none
  complete : Option Bool := none
  inventory_exists : Option Bool := none
  limit : Option Int := none
  start_after : Option String := none
  order_by : Option String := none
  order_by_direction : Option OrderByDirection := none
deriving Repr, DecidableEq

/-- `ListQueryParams.as_query_param_str`, exactly as written: each truthy
attribute appends `key=value` via `+=` to one accumulator string (there is no
separator between segments), booleans render with Python `f"{...}"`
(capitalized), the cursor and sort key are quoted with `quote_plus`, and the
empty accumulator yields `None`. -/
def ListQueryParams.as_query_param_str (p : ListQueryParams) : Option String :=
  let qs := ""
  let qs := if pyTruthyOptBool p.inventory_negative then
    qs ++ "inventory_negative=" ++ pyStrBool (p.inventory_negative.getD false) else qs
  let qs := if pyTruthyOptBool p.complete then
    qs ++ "complete=" ++ pyStrBool (p.complete.getD false) else qs
  let qs := if pyTruthyOptBool p.inventory_exists then
    qs ++ "inventory_exists=" ++ pyStrBool (p.inventory_exists.getD false) else qs
  let qs := if pyTruthyOptInt p.limit then
    qs ++ "limit=" ++ toString (p.limit.getD 0) else qs
  let qs := if pyTruthyOptStr p.start_after then
    qs ++ "start_after=" ++ quote_plus (p.start_after.getD "") else qs
  let qs := if pyTruthyOptStr p.order_by then
    qs ++ "order_by=" ++ quote_plus (p.order_by.getD "") else qs
  let qs := match p.order_by_direction with
    | some d => qs ++ "order_by_direction=" ++ d.val
    | none => qs
  if qs ≠ "" then some qs else none

/-- `BrewfatherClient._build_url`: appends `/{id}` for a truthy id and
`?{query_params.as_query_param_str()}` whenever a query-params OBJECT is
passed (any instance is truthy in Python), rendering a `None` result of the
builder as the literal text `None`. -/
def build_url (endpoint : String) (id : Option String)
    (query_params : Option ListQueryParams) : String :=
  let url := BASE_URL ++ "/" ++ endpoint
  let url := match id with
    | some s => if s ≠ "" then url ++ "/" ++ s else url
    | none => url
  match query_params with
  | some p => url ++ "?" ++ pyStrOptStr p.as_query_param_str
  | none => url

/-- An outgoing HTTP request with a JSON body, as assembled by
`BrewfatherClient._make_patch_request` (one `client.patch(url, json=data)`
call per invocation). -/
structure PatchRequest where
  method : String
  url : String
  body : JObj

/-- `BrewfatherClient._make_patch_request`: issues a single PATCH with the
given JSON body. -/
def make_patch_request (url : String) (data : JObj) : PatchRequest :=
  { method := "PATCH", url := url, body := data }

/-- `httpx.Response.raise_for_status`: 2xx responses pass, everything else
raises carrying the status code; `_make_patch_request` then returns nothing. -/
def raise_for_status (status : Nat) : Except Nat Unit :=
  if 200 ≤ status ∧ status ≤ 299 then .ok () else .error status

/-- `BrewfatherClient.update_fermentable_inventory`: the single PATCH request
it issues for the given id and amount. -/
def update_fermentable_inventory (id : String) (inventory : ℚ) : PatchRequest :=
  make_patch_request
    (build_url ("inventory/" ++ InventoryCategory.fermentables.val) (some id) none)
    [("inventory", .num inventory)]

/-- `BrewfatherClient.update_hop_inventory`. -/
def update_hop_inventory (id : String) (inventory : ℚ) : PatchRequest :=
  make_patch_request
    (build_url ("inventory/" ++ InventoryCategory.hops.val) (some id) none)
    [("inventory", .num inventory)]

/-- `BrewfatherClient.update_yeast_inventory`. -/
def update_yeast_inventory (id : String) (inventory : ℚ) : PatchRequest :=
  make_patch_request
    (build_url ("inventory/" ++ InventoryCategory.yeasts.val) (some id) none)
    [("inventory", .num inventory)]

/-- `BrewfatherClient.update_misc_inventory`. -/
def update_misc_inventory (id : String) (inventory : ℚ) : PatchRequest :=
  make_patch_request
    (build_url ("inventory/" ++ InventoryCategory.miscs.val) (some id) none)
    [("inventory", .num inventory)]

/- Bounded concurrent fetch helper.  `brewfather_mcp.utils.get_in_batches` is
imported by inventory.py but `brewfather_mcp/utils.py` is not in the source
tree; the helper is therefore modelled from the specification. -/

namespace Hydrate

/-- Modelled from the spec: the scheduler state of the bounded concurrent
fetch helper `brewfather_mcp.utils.get_in_batches` (spec §4.4, §5 — absent
from src).  Result slots are pre-allocated by input index and filled in as
the corresponding task completes; `log` records the completion order;
`firstErr` latches the first failure observed. -/
structure FetchState (ε δ : Type) where
  nextIdx : Nat
  inFlight : List Nat
  slots : List (Option (Except ε δ))
  firstErr : Option ε
  log : List Nat

variable {ε δ : Type}

/-- Modelled from the spec: admission control of `get_in_batches` — queued
items start as soon as a slot is free, until `limit` tasks are in flight or
the input is exhausted. -/
def admitAll (limit n : Nat) (s : FetchState ε δ) : FetchState ε δ :=
  { s with
    inFlight := s.inFlight ++
      List.range' s.nextIdx (min (limit - s.inFlight.length) (n - s.nextIdx))
    nextIdx := s.nextIdx + min (limit - s.inFlight.length) (n - s.nextIdx) }

/-- Initial state: nothing fetched, all result slots empty, admission run
once. -/
def initState (limit n : Nat) : FetchState ε δ :=
  admitAll limit n ⟨0, [], List.replicate n none, none, []⟩

/-- The error carried by a failed fetch result. -/
def errOf : Except ε δ → Option ε
  | .error e => some e
  | .ok _ => none

/-- Modelled from the spec: one scheduler step of `get_in_batches` — the
in-flight task at position `c` of the in-flight list completes (`fetch`
gives each input index its result), its result is written into its
pre-allocated slot, the first failure is latched, and the freed capacity is
immediately refilled. -/
def completeOne (fetch : Nat → Except ε δ) (limit n : Nat) (s : FetchState ε δ)
    (c : Nat) : FetchState ε δ :=
  match s.inFlight[c]? with
  | none => s
  | some i =>
    admitAll limit n
      { nextIdx := s.nextIdx
        inFlight := s.inFlight.eraseIdx c
        slots := s.slots.set i (some (fetch i))
        firstErr := match s.firstErr with
          | some e => some e
          | none => errOf (fetch i)
        log := s.log ++ [i] }

/-- Run the helper under a completion schedule: `sched` picks, at each step,
which in-flight task finishes next. -/
def runSched (fetch : Nat → Except ε δ) (limit n : Nat) (sched : List Nat) :
    FetchState ε δ :=
  sched.foldl (completeOne fetch limit n) (initState limit n)

/-- Every state the helper passes through under a schedule. -/
def states (fetch : Nat → Except ε δ) (limit n : Nat) (sched : List Nat) :
    List (FetchState ε δ) :=
  sched.scanl (completeOne fetch limit n) (initState limit n)

/-- A schedule under which every input item has been fetched. -/
def Completes (fetch : Nat → Except ε δ) (limit n : Nat) (sched : List Nat) : Prop :=
  (runSched fetch limit n sched).inFlight = [] ∧
  (runSched fetch limit n sched).nextIdx = n

/-- Modelled from the spec: the result of
`get_in_batches(limit, fetch, summaryList)` on a list of `n` summaries under
a completion schedule — the first error encountered, or the hydrated details
in input order. -/
def get_in_batches (limit : Nat) (fetch : Nat → Except ε δ) (n : Nat)
    (sched : List Nat) : Except ε (List δ) :=
  let s := runSched fetch limit n sched
  match s.firstErr with
  | some e => .error e
  | none => .ok (s.slots.filterMap fun o =>
      match o with
      | some (.ok d) => some d
      | _ => none)

/-- Scheduler invariant: slots sized to the input; indices in flight are
admitted and distinct; at most `limit` tasks in flight; a slot is filled
exactly when its task has completed, with that task's result; the latched
error is the first error in completion order. -/
def Inv (fetch : Nat → Except ε δ) (limit n : Nat) (s : FetchState ε δ) : Prop :=
  s.slots.length = n ∧
  s.nextIdx ≤ n ∧
  s.inFlight.length ≤ limit ∧
  s.inFlight.Nodup ∧
  (∀ i ∈ s.inFlight, i < s.nextIdx) ∧
  (∀ i, i ∈ s.log ↔ (i < s.nextIdx ∧ i ∉ s.inFlight)) ∧
  (∀ i, i < n → ((∃ r, s.slots[i]? = some (some r)) ↔ i ∈ s.log)) ∧
  (∀ i r, s.slots[i]? = some (some r) → r = fetch i) ∧
  s.firstErr = (s.log.filterMap fun i => errOf (fetch i)).head?

theorem mem_eraseIdx_nodup {l : List Nat} {c i : Nat} (hnd : l.Nodup)
    (hc : l[c]? = some i) (j : Nat) : j ∈ l.eraseIdx c ↔ j ∈ l ∧ j ≠ i := by
  induction l generalizing c with
  | nil => simp at hc
  | cons a t ih =>
    cases c with
    | zero =>
      simp at hc
      subst hc
      simp only [List.eraseIdx_zero, List.tail_cons, List.mem_cons]
      constructor
      · intro hj
        refine ⟨Or.inr hj, ?_⟩
        rintro rfl
        exact (List.nodup_cons.mp hnd).1 hj
      · rintro ⟨hj | hj, hne⟩
        · exact absurd hj hne
        · exact hj
    | succ c =>
      have hc' : t[c]? = some i := by simpa using hc
      have hnd' := List.nodup_cons.mp hnd
      have hit : i ∈ t := List.getElem?_mem hc'
      simp only [List.eraseIdx_cons_succ, List.mem_cons, ih hnd'.2 hc']
      constructor
      · rintro (rfl | ⟨hj, hne⟩)
        · refine ⟨Or.inl rfl, ?_⟩
          rintro rfl
          exact hnd'.1 hit
        · exact ⟨Or.inr hj, hne⟩
      · rintro ⟨rfl | hj, hne⟩
        · exact Or.inl rfl
        · exact Or.inr ⟨hj, hne⟩

theorem inv_admitAll {fetch : Nat → Except ε δ} {limit n : Nat} {s : FetchState ε δ}
    (h : Inv fetch limit n s) : Inv fetch limit n (admitAll limit n s) := by
  obtain ⟨h1, h2, h3, h4, h5, h6, h7, h8, h9⟩ := h
  unfold admitAll
  generalize hkd : min (limit - s.inFlight.length) (n - s.nextIdx) = k
  have hk1 : k ≤ limit - s.inFlight.length := hkd ▸ min_le_left _ _
  have hk2 : k ≤ n - s.nextIdx := hkd ▸ min_le_right _ _
  refine ⟨h1, ?_, ?_, ?_, ?_, ?_, ?_, h8, h9⟩
  · dsimp only
    omega
  · dsimp only
    simp only [List.length_append, List.length_range']
    omega
  · dsimp only
    rw [List.nodup_append]
    refine ⟨h4, List.nodup_range' _ _ 1 Nat.one_pos, ?_⟩
    intro x hx hx'
    have hxa := h5 x hx
    have hxb := List.mem_range'_1.mp hx'
    omega
  · dsimp only
    intro i hi
    rcases List.mem_append.mp hi with hi | hi
    · have := h5 i hi
      omega
    · have := List.mem_range'_1.mp hi
      omega
  · dsimp only
    intro i
    rw [h6 i]
    constructor
    · rintro ⟨hlt, hnm⟩
      refine ⟨by omega, ?_⟩
      intro hm
      rcases List.mem_append.mp hm with hm | hm
      · exact hnm hm
      · have := List.mem_range'_1.mp hm
        omega
    · rintro ⟨hlt, hnm⟩
      rw [List.mem_append] at hnm
      push_neg at hnm
      obtain ⟨hnm1, hnm2⟩ := hnm
      refine ⟨?_, hnm1⟩
      by_contra hge
      push_neg at hge
      exact hnm2 (List.mem_range'_1.mpr ⟨by omega, by omega⟩)
  · dsimp only
    intro i hi
    exact h7 i hi

theorem inv_completeOne {fetch : Nat → Except ε δ} {limit n : Nat} {s : FetchState ε δ}
    (h : Inv fetch limit n s) (c : Nat) :
    Inv fetch limit n (completeOne fetch limit n s c) := by
  unfold completeOne
  cases hc : s.inFlight[c]? with
  | none => exact h
  | some i =>
    obtain ⟨h1, h2, h3, h4, h5, h6, h7, h8, h9⟩ := h
    have hmem : i ∈ s.inFlight := List.getElem?_mem hc
    have hilt : i < s.nextIdx := h5 i hmem
    have hiltn : i < n := by omega
    have hclen : c < s.inFlight.length := by
      by_contra hge
      rw [List.getElem?_eq_none (by omega)] at hc
      exact Option.noConfusion hc
    have hnotlog : i ∉ s.log := fun hl => ((h6 i).mp hl).2 hmem
    apply inv_admitAll
    refine ⟨?_, h2, ?_, ?_, ?_, ?_, ?_, ?_, ?_⟩
    · simpa using h1
    · simp only [List.length_eraseIdx_of_lt hclen]
      omega
    · exact h4.eraseIdx c
    · intro j hj
      exact h5 j (List.mem_of_mem_eraseIdx hj)
    · intro j
      simp only [List.mem_append, List.mem_singleton,
        mem_eraseIdx_nodup h4 hc j, h6 j]
      by_cases hji : j = i
      · subst hji
        simp [hilt, hmem]
      · simp [hji]
    · intro j hj
      by_cases hji : j = i
      · subst hji
        simp only [List.getElem?_set_eq_of_lt _ (by omega : j < s.slots.length)]
        simp
      · rw [List.getElem?_set_ne (by omega : i ≠ j)]
        rw [h7 j hj]
        simp [hji]
    · intro j r hj
      by_cases hji : j = i
      · subst hji
        rw [List.getElem?_set_eq_of_lt _ (by omega : j < s.slots.length)] at hj
        simp only [Option.some.injEq] at hj
        exact hj.symm
      · rw [List.getElem?_set_ne (by omega : i ≠ j)] at hj
        exact h8 j r hj
    · simp only [List.filterMap_append, h9]
      cases hfe : (s.log.filterMap fun j => errOf (fetch j)) with
      | nil =>
        simp only [List.nil_append]
        cases hr : errOf (fetch i) <;> simp [List.filterMap, hr]
      | cons e t =>
        simp

theorem inv_initState {fetch : Nat → Except ε δ} {limit n : Nat} :
    Inv fetch limit n (initState limit n) := by
  apply inv_admitAll
  refine ⟨by simp, by simp, by simp, by simp, by simp, by simp, ?_, ?_, by simp⟩
  · intro i hi
    simp [List.getElem?_replicate, hi]
  · intro i r hi
    rw [List.getElem?_replicate] at hi
    split at hi <;> simp_all

theorem inv_runSched (fetch : Nat → Except ε δ) (limit n : Nat) (sched : List Nat) :
    Inv fetch limit n (runSched fetch limit n sched) := by
  unfold runSched
  generalize hini : initState limit n = s0
  have h0 : Inv fetch limit n s0 := hini ▸ inv_initState
  clear hini
  induction sched generalizing s0 with
  | nil => exact h0
  | cons c cs ih => exact ih _ (inv_completeOne h0 c)

theorem inv_states (fetch : Nat → Except ε δ) (limit n : Nat) (sched : List Nat) :
    ∀ s ∈ states fetch limit n sched, Inv fetch limit n s := by
  unfold states
  generalize hini : initState limit n = s0
  have h0 : Inv fetch limit n s0 := hini ▸ inv_initState
  clear hini
  induction sched generalizing s0 with
  | nil =>
    intro s hs
    simp only [List.scanl_nil, List.mem_singleton] at hs
    exact hs ▸ h0
  | cons c cs ih =>
    intro s hs
    rw [List.scanl_cons] at hs
    simp only [List.singleton_append, List.mem_cons] at hs
    rcases hs with rfl | hs
    · exact h0
    · exact ih _ (inv_completeOne h0 c) s hs

/-- In a completed run every slot holds its task's result. -/
theorem done_slots {fetch : Nat → Except ε δ} {limit n : Nat} {sched : List Nat}
    (hc : Completes fetch limit n sched) :
    ∀ i, i < n → (runSched fetch limit n sched).slots[i]? = some (some (fetch i)) := by
  obtain ⟨h1, h2, h3, h4, h5, h6, h7, h8, h9⟩ := inv_runSched fetch limit n sched
  intro i hi
  have hlog : i ∈ (runSched fetch limit n sched).log := by
    rw [h6 i, hc.1, hc.2]
    simp [hi]
  obtain ⟨r, hr⟩ := (h7 i hi).mpr hlog
  rw [hr, h8 i r hr]

/-- In a completed run the completion log holds exactly the input indices. -/
theorem done_log {fetch : Nat → Except ε δ} {limit n : Nat} {sched : List Nat}
    (hc : Completes fetch limit n sched) :
    ∀ i, i ∈ (runSched fetch limit n sched).log ↔ i < n := by
  obtain ⟨h1, h2, h3, h4, h5, h6, h7, h8, h9⟩ := inv_runSched fetch limit n sched
  intro i
  rw [h6 i, hc.1, hc.2]
  simp

end Hydrate

/- Round-trip lemmas for the enum serializations. -/

theorem hopUse_parse_val (u : HopUse) : HopUse.parse u.val = some u := by
  cases u <;> rfl

theorem yeastForm_parse_val (u : YeastForm) : YeastForm.parse u.val = some u := by
  cases u <;> rfl

theorem miscUse_parse_val (u : MiscUse) : MiscUse.parse u.val = some u := by
  cases u <;> rfl

theorem vMiscType_str (fld s : String) : vMiscType fld (some (.str s)) =
    .ok (match MiscType.parse s with
      | some t => some (.known t)
      | none => some (.raw s)) := by
  cases h : MiscType.parse s <;> simp [vMiscType, h]

theorem vMiscType_none (fld : String) : vMiscType fld none = .ok none := rfl

theorem vMiscType_null (fld : String) : vMiscType fld (some .null) = .ok none := rfl

/- Inversion lemmas for the field combinators. -/

theorem vStr_ok {fld : String} {x : Option Json} {s : String}
    (h : vStr fld x = .ok s) : x = some (.str s) := by
  cases x with
  | none => exact absurd h (by simp [vStr])
  | some j => cases j <;> simp_all [vStr]

theorem vStrNull_some {fld : String} {x : Option Json} {v : Option String}
    (h : vStrNull fld x = .ok v) : ∃ j, x = some j := by
  cases x with
  | none => exact absurd h (by simp [vStrNull])
  | some j => exact ⟨j, rfl⟩

theorem jget2_some {o : JObj} {k1 k2 : String} {j : Json}
    (h : jget2 o k1 k2 = some j) :
    ∃ inner, jget o k1 = some (.obj inner) ∧ jget inner k2 = some j := by
  unfold jget2 at h
  cases hx : jget o k1 with
  | none => rw [hx] at h; exact absurd h (by simp)
  | some jv =>
    rw [hx] at h
    cases jv <;> simp at h
    exact ⟨_, rfl, h⟩

theorem vObj_ok {α : Type} {fld : String} {sub : JObj → Except String α}
    {x : Option Json} {a : α} (h : vObj fld sub x = .ok a) :
    ∃ o2, x = some (.obj o2) ∧ sub o2 = .ok a := by
  cases x with
  | none => exact absurd h (by simp [vObj])
  | some j =>
    cases j <;> simp [vObj] at h
    exact ⟨_, rfl, h⟩

/- Concrete payloads used by the counterexamples and witnesses; the summary
and envelope values are the mock payloads of tests/test_brewfather_client.py. -/

/-- The version envelope mock of the test suite (`version_mock`). -/
def envMockJ : JObj :=
  [("_rev", .str "foo"), ("_version", .str "2.8.1"),
   ("_timestamp", .obj [("_seconds", .num 1644033488), ("_nanoseconds", .num 107000000)]),
   ("_timestamp_ms", .num 1644033488107),
   ("_created", .obj [("_seconds", .num 1621674499), ("_nanoseconds", .num 901000000)])]

/-- The fermentable list-endpoint element mock of the test suite. -/
def fermSummaryMock : JObj :=
  [("_id", .str "f1"), ("name", .str "Pilsner Malt"), ("inventory", .num 10),
   ("type", .str "Grain"), ("supplier", .str "Weyermann")]

/-- The yeast list-endpoint element mock of the test suite. -/
def yeastSummaryMock : JObj :=
  [("_id", .str "y1"), ("name", .str "US-05"), ("inventory", .num 5),
   ("attenuation", .num 81), ("type", .str "Ale")]

/-- A batch payload carrying only a separate `recipeId` string and no nested
`recipe` object. -/
def batchOnlyRecipeIdMock : JObj :=
  [("_id", .str "b1"), ("name", .str "B"), ("batchNo", .num 1),
   ("recipeId", .str "r1")] ++ envMockJ

/-- The batch detail mock of the test suite: summary fields, a nested recipe
object, and the version envelope. -/
def batchDetailMock : JObj :=
  [("_id", .str "b1"), ("name", .str "Detailed Batch"), ("batchNo", .num 2),
   ("status", .str "Fermenting"),
   ("recipe", .obj [("name", .str "Detailed Recipe"), ("_id", .str "recipe2")])] ++ envMockJ

/-- A recipe-context hop carrying no identity key at all. -/
def recipeHopNoIdMock : JObj :=
  [("name", .str "Cascade"), ("type", .str "Pellet"), ("alpha", .num (11/2)),
   ("amount", .num 28), ("time", .num 60), ("use", .str "Boil")]

/-- A recipe-context yeast carrying no identity key at all. -/
def recipeYeastNoIdMock : JObj :=
  [("name", .str "US-05"), ("type", .str "Ale"), ("amount", .num 1)]

/-- A recipe-context misc item carrying no identity key at all. -/
def recipeMiscNoIdMock : JObj :=
  [("name", .str "Irish Moss"), ("amount", .num 10), ("use", .str "Boil")]

/-- A recipe list-endpoint element (name and identity only). -/
def recipeSummaryMock : JObj :=
  [("name", .str "My IPA"), ("_id", .str "r1")]

/-- A recipe-context fermentable: the detail payload plus the required
recipe-context `amount`. -/
def recipeFermMock : JObj :=
  fermSummaryMock ++ envMockJ ++
  [("color", .num 3), ("potential", .num (1036/1000)),
   ("potentialPercentage", .num 80), ("amount", .num 5)]

/-- An inventory fermentable whose identity key is present but null. -/
def fermNullIdMock : JObj :=
  [("_id", .null), ("name", .str "X"), ("type", .str "Grain"), ("supplier", .str "S")]

/-- An all-successful detail fetch over the input indices. -/
def fetchOkNat : Nat → Except String Nat := fun i => .ok i

/-- A detail fetch failing exactly on the 4th of 7 items (index 3). -/
def fetchBoomNat : Nat → Except String Nat :=
  fun i => if i = 3 then .error "boom" else .ok i

/-- C1: evaluation at the failing input.  For a Query Specification with
`limit = 50` and `inventory_exists = True` — exactly what the server's
list tools build — `as_query_param_str` emits the two segments glued
together with NO separator and renders the boolean as Python's capitalized
`"True"`, not the claimed literal `"inventory_exists=true"`, and
`_build_url` appends that single malformed run after the `?`.  The claim's
delimited `inventory_exists=true&...`-style output is not what the code
produces. -/
theorem claim_c1_query_builder_eval :
    ListQueryParams.as_query_param_str
        { inventory_exists := some true, limit := some 50 } =
      some "inventory_exists=Truelimit=50" ∧
    build_url "inventory/fermentables" none
        (some { inventory_exists := some true, limit := some 50 }) =
      "https://api.brewfather.app/v2/inventory/fermentables?inventory_exists=Truelimit=50" := by
  exact ⟨rfl, rfl⟩

/-- C5: evaluation at the failing input.  For a Query Specification with
zero fields set, `as_query_param_str` does return no string (`None`), as the
claim says; but passing such a (truthy) specification object to `_build_url`
appends `?` followed by Python's rendering of `None`, so the URL ends in the
stray query text `?None` instead of having no `?` at all. -/
theorem claim_c5_empty_query_eval :
    ListQueryParams.as_query_param_str {} = none ∧
    build_url "recipes" none (some {}) =
      "https://api.brewfather.app/v2/recipes?None" := by
  exact ⟨rfl, rfl⟩

/-- C9: `update_fermentable_inventory "f1" 12.5` issues exactly one PATCH
request (the embedding returns the single request the code sends) to
`/inventory/fermentables/f1` whose JSON body is exactly
`{"inventory": 12.5}` with no other fields; `raise_for_status` passes 2xx
responses, after which the method returns nothing, and raises otherwise. -/
theorem claim_c9_patch_request :
    update_fermentable_inventory "f1" (12.5 : ℚ) =
      { method := "PATCH",
        url := "https://api.brewfather.app/v2/inventory/fermentables/f1",
        body := [("inventory", .num 12.5)] } ∧
    raise_for_status 200 = .ok () ∧ raise_for_status 204 = .ok () ∧
    raise_for_status 500 = .error 500 := by
  exact ⟨rfl, rfl, rfl, rfl⟩

/-- C8: `Timestamp.to_datetime` converts the two-field timestamp to the
point-in-time value `seconds + nanoseconds / 1e9`; in particular the parsed
payload with seconds 1621674499 and nanoseconds 901000000 converts to
exactly 1621674499.901. -/
theorem claim_c8_timestamp_conversion :
    (∀ t : Timestamp, t.to_datetime = (t.seconds : ℚ) + (t.nanoseconds : ℚ) / 1e9) ∧
    Timestamp.model_validate
        [("_seconds", .num 1621674499), ("_nanoseconds", .num 901000000)] =
      .ok { seconds := 1621674499, nanoseconds := 901000000 } ∧
    Timestamp.to_datetime { seconds := 1621674499, nanoseconds := 901000000 } =
      1621674499901 / 1000 := by
  refine ⟨fun t => rfl, rfl, ?_⟩
  unfold Timestamp.to_datetime
  norm_num

/-- C7: every enumerated field accepts exactly its documented literal string
set — batch lifecycle status, hop use stage, misc use stage, mash and
fermentation step types, carbonation type and the gravity-formula variant —
and the field-level check (`vEnum`/`vEnumD`, used by every validator above)
succeeds exactly on members, failing with a validation error on any other
string instead of coercing it. -/
theorem claim_c7_enum_literal_sets : ∀ s : String,
    ((BatchStatus.parse s).isSome ↔ s = "Planning" ∨ s = "Brewing" ∨
      s = "Fermenting" ∨ s = "Conditioning" ∨ s = "Completed" ∨ s = "Archived") ∧
    ((HopUse.parse s).isSome ↔ s = "Boil" ∨ s = "Dry Hop" ∨ s = "Aroma" ∨
      s = "First Wort" ∨ s = "Hopstand") ∧
    ((MiscUse.parse s).isSome ↔ s = "Mash" ∨ s = "Boil" ∨ s = "Primary" ∨
      s = "Secondary" ∨ s = "Bottling") ∧
    ((MashStepType.parse s).isSome ↔ s = "Infusion" ∨ s = "Temperature" ∨
      s = "Decoction") ∧
    ((FermentationStepType.parse s).isSome ↔ s = "Primary" ∨ s = "Secondary" ∨
      s = "Conditioning") ∧
    ((CarbonationType.parse s).isSome ↔ s = "Sugar" ∨ s = "Keg (Force)" ∨
      s = "CO2 Tabs") ∧
    ((FgFormula.parse s).isSome ↔ s = "normal" ∨ s = "adv") ∧
    ((vEnumD "status" BatchStatus.parse BatchStatus.planning
        (some (.str s))).isOk = (BatchStatus.parse s).isSome) ∧
    ((vEnum "use" HopUse.parse (some (.str s))).isOk = (HopUse.parse s).isSome) := by
  intro s
  refine ⟨?_, ?_, ?_, ?_, ?_, ?_, ?_, ?_, ?_⟩
  · unfold BatchStatus.parse
    split_ifs <;> simp_all
  · unfold HopUse.parse
    split_ifs <;> simp_all
  · unfold MiscUse.parse
    split_ifs <;> simp_all
  · unfold MashStepType.parse
    split_ifs <;> simp_all
  · unfold FermentationStepType.parse
    split_ifs <;> simp_all
  · unfold CarbonationType.parse
    split_ifs <;> simp_all
  · unfold FgFormula.parse
    split_ifs <;> simp_all
  · cases h : BatchStatus.parse s <;> simp [vEnumD, h, Except.isOk, Except.toBool]
  · cases h : HopUse.parse s <;> simp [vEnum, h, Except.isOk, Except.toBool]

/-- C4 counterexample: the test suite's own fermentable list payload plus the
version envelope is a valid Summary and a valid envelope, yet
`FermentableDetail` validation fails on the required field `color`; likewise
the yeast summary plus envelope fails `YeastDetail` validation on the
required `laboratory`.  Detail is therefore not validated by every
Summary-plus-envelope payload. -/
theorem claim_c4_superset_counterexample :
    (FermentableBase.model_validate (fermSummaryMock ++ envMockJ)).isOk = true ∧
    (VersionedModel.checkFields true (fermSummaryMock ++ envMockJ)).isOk = true ∧
    FermentableDetail.model_validate (fermSummaryMock ++ envMockJ) = .error "color" ∧
    (Yeast.model_validate (yeastSummaryMock ++ envMockJ)).isOk = true ∧
    YeastDetail.model_validate (yeastSummaryMock ++ envMockJ) = .error "laboratory" := by
  exact ⟨rfl, rfl, rfl, rfl, rfl⟩

set_option maxHeartbeats 2000000 in
/-- C4 as amended: a payload made of a valid Summary payload plus the Version
Envelope validates as the corresponding Detail type for hop and misc; for
fermentable the payload must additionally carry `color`, `potential` and
`potentialPercentage`, and for yeast it must additionally carry
`laboratory` — those Detail fields are declared without defaults. -/
theorem claim_c4_detail_superset_validation :
    (∀ (h : Hop) (v : VersionedModel),
      (HopDetail.model_validate (h.toJson ++ v.toJson)).isOk = true) ∧
    (∀ (m : Misc) (v : VersionedModel),
      (MiscDetail.model_validate (m.toJson ++ v.toJson)).isOk = true) ∧
    (∀ (f : FermentableBase) (v : VersionedModel) (c pt pp : ℚ),
      (FermentableDetail.model_validate (f.toJson ++ v.toJson ++
        [("color", .num c), ("potential", .num pt),
         ("potentialPercentage", .num pp)])).isOk = true) ∧
    (∀ (y : Yeast) (v : VersionedModel) (lab : String),
      (YeastDetail.model_validate (y.toJson ++ v.toJson ++
        [("laboratory", .str lab)])).isOk = true) := by
  refine ⟨?_, ?_, ?_, ?_⟩
  · intro h v
    obtain ⟨⟨hid, hinv⟩, hname, htype, halpha, huse⟩ := h
    obtain ⟨vv, ⟨vcs, vcn⟩, ⟨vts, vtn⟩, vtm, vr⟩ := v
    cases hid <;> cases hinv <;> cases huse <;>
      simp [HopDetail.model_validate, Hop.model_validate, VersionedModel.checkFields,
        Timestamp.model_validate, Hop.toJson, VersionedModel.toJson, Timestamp.toJson,
        jget, jgetA, jOptStr, jOptNum, vStr, vStrNull, vOptFloat, vFloat, vOptEnum,
        vOptStr, vOptInt, vStrD, vDateNorm, vBoolD, vFloatD, vInt, vObj, ok_bind,
        Bind.bind, Except.bind, Pure.pure, Except.pure, hopUse_parse_val,
        Rat.den_intCast, Except.isOk, Except.toBool]
  · intro m v
    obtain ⟨⟨mid, minv⟩, mname, mtype, muse, mnotes⟩ := m
    obtain ⟨vv, ⟨vcs, vcn⟩, ⟨vts, vtn⟩, vtm, vr⟩ := v
    cases mid <;> cases minv <;> cases muse <;> cases mnotes <;>
      rcases mtype with _ | ⟨t | s⟩ <;>
      simp [MiscDetail.model_validate, Misc.model_validate, VersionedModel.checkFields,
        Timestamp.model_validate, Misc.toJson, VersionedModel.toJson, Timestamp.toJson,
        MiscTypeVal.toJson, jget, jgetA, jOptStr, jOptNum, vStr, vStrNull, vOptFloat,
        vFloat, vOptEnum, vMiscType_str, vMiscType_none, vMiscType_null, vOptStr,
        vOptInt, vStrD, vDateNorm, vBoolD, vFloatD, vInt, vObj, ok_bind, Bind.bind,
        Except.bind, Pure.pure, Except.pure, miscUse_parse_val, Rat.den_intCast,
        Except.isOk, Except.toBool]
  · intro f v c pt pp
    obtain ⟨⟨fid, finv⟩, fname, ftype, fsup, fatt⟩ := f
    obtain ⟨vv, ⟨vcs, vcn⟩, ⟨vts, vtn⟩, vtm, vr⟩ := v
    cases fid <;> cases finv <;> cases fatt <;>
      simp [FermentableDetail.model_validate, FermentableBase.model_validate,
        VersionedModel.checkFields, Timestamp.model_validate, FermentableBase.toJson,
        VersionedModel.toJson, Timestamp.toJson, jget, jgetA, jOptStr, jOptNum, vStr,
        vStrNull, vOptFloat, vFloat, vOptEnum, vOptStr, vOptInt, vOptBool, vStrD,
        vDateNorm, vBoolD, vFloatD, vInt, vObj, ok_bind, Bind.bind, Except.bind,
        Pure.pure, Except.pure, Rat.den_intCast, Except.isOk, Except.toBool]
  · intro y v lab
    obtain ⟨⟨yid, yinv⟩, yname, ytype, yatt, yform⟩ := y
    obtain ⟨vv, ⟨vcs, vcn⟩, ⟨vts, vtn⟩, vtm, vr⟩ := v
    cases yid <;> cases yinv <;> cases yatt <;> cases yform <;>
      simp [YeastDetail.model_validate, Yeast.model_validate, VersionedModel.checkFields,
        Timestamp.model_validate, Yeast.toJson, VersionedModel.toJson, Timestamp.toJson,
        jget, jgetA, jOptStr, jOptNum, vStr, vStrNull, vOptFloat, vFloat, vOptEnum,
        vOptStr, vOptInt, vOptBool, vStrD, vDateNorm, vBoolD, vFloatD, vInt, vObj,
        ok_bind, Bind.bind, Except.bind, Pure.pure, Except.pure, yeastForm_parse_val,
        Rat.den_intCast, Except.isOk, Except.toBool]

/-- C6 counterexample: an inventory fermentable whose `_id` key is present
but null validates successfully with a null identity — so a successfully
parsed inventory-context record does NOT always carry a non-null identity,
and null identity is not confined to recipe-context ingredients. -/
theorem claim_c6_null_identity_counterexample :
    FermentableBase.model_validate fermNullIdMock =
      .ok { id := none, inventory := none, name := "X", type := "Grain",
            supplier := "S", attenuation := none } := by
  exact rfl

/-- C6 as amended: inventory records (fermentable, hop, yeast, misc, summary
and by inheritance detail) require the identity KEY to be present but accept
a null value, because `InventoryItem.id` is a required `str | None`; batch
and recipe records require a non-null string identity (`Batch.id` and
`Recipe.id` are required `str`); among recipe-context ingredients,
`RecipeHop`, `RecipeYeast` and `RecipeMisc` redeclare the identity with
`default=None` and so accept a wholly absent key, while `RecipeFermentable`
inherits the required nullable key from `InventoryItem` unchanged. -/
theorem claim_c6_identity_nullability :
    (∀ o f, FermentableBase.model_validate o = .ok f →
      ∃ j, jgetA o "_id" "id" = some j) ∧
    (∀ o h, Hop.model_validate o = .ok h → ∃ j, jgetA o "_id" "id" = some j) ∧
    (∀ o y, Yeast.model_validate o = .ok y → ∃ j, jgetA o "_id" "id" = some j) ∧
    (∀ o m, Misc.model_validate o = .ok m → ∃ j, jgetA o "_id" "id" = some j) ∧
    (∀ o b, Batch.model_validate o = .ok b → jget o "_id" = some (.str b.id)) ∧
    (∀ o (u : Unit), Recipe.model_validate o = .ok u →
      ∃ s, jgetA o "_id" "id" = some (.str s)) ∧
    (∀ o (u : Unit), RecipeDetail.model_validate o = .ok u →
      ∃ s, jgetA o "_id" "id" = some (.str s)) ∧
    (∀ o (u : Unit), RecipeFermentable.model_validate o = .ok u →
      ∃ j, jgetA o "_id" "id" = some j) ∧
    ((RecipeHop.model_validate recipeHopNoIdMock).isOk = true ∧
      jget recipeHopNoIdMock "_id" = none) ∧
    ((RecipeYeast.model_validate recipeYeastNoIdMock).isOk = true ∧
      jget recipeYeastNoIdMock "_id" = none) ∧
    ((RecipeMisc.model_validate recipeMiscNoIdMock).isOk = true ∧
      jget recipeMiscNoIdMock "_id" = none) := by
  refine ⟨?_, ?_, ?_, ?_, ?_, ?_, ?_, ?_, ⟨rfl, rfl⟩, ⟨rfl, rfl⟩, rfl, rfl⟩
  · intro o f h
    unfold FermentableBase.model_validate at h
    rw [ebind_ok_iff] at h; obtain ⟨a1, h1, h⟩ := h
    exact vStrNull_some h1
  · intro o hp h
    unfold Hop.model_validate at h
    rw [ebind_ok_iff] at h; obtain ⟨a1, h1, h⟩ := h
    rw [ebind_ok_iff] at h; obtain ⟨a2, h2, h⟩ := h
    rw [ebind_ok_iff] at h; obtain ⟨a3, h3, h⟩ := h
    rw [ebind_ok_iff] at h; obtain ⟨a4, h4, h⟩ := h
    exact vStrNull_some h4
  · intro o y h
    unfold Yeast.model_validate at h
    rw [ebind_ok_iff] at h; obtain ⟨a1, h1, h⟩ := h
    rw [ebind_ok_iff] at h; obtain ⟨a2, h2, h⟩ := h
    rw [ebind_ok_iff] at h; obtain ⟨a3, h3, h⟩ := h
    rw [ebind_ok_iff] at h; obtain ⟨a4, h4, h⟩ := h
    exact vStrNull_some h4
  · intro o m h
    unfold Misc.model_validate at h
    rw [ebind_ok_iff] at h; obtain ⟨a1, h1, h⟩ := h
    rw [ebind_ok_iff] at h; obtain ⟨a2, h2, h⟩ := h
    rw [ebind_ok_iff] at h; obtain ⟨a3, h3, h⟩ := h
    exact vStrNull_some h3
  · intro o b h
    unfold Batch.model_validate at h
    rw [ebind_ok_iff] at h; obtain ⟨a1, h1, h⟩ := h
    rw [ebind_ok_iff] at h; obtain ⟨a2, h2, h⟩ := h
    rw [ebind_ok_iff] at h; obtain ⟨a3, h3, h⟩ := h
    rw [ebind_ok_iff] at h; obtain ⟨a4, h4, h⟩ := h
    rw [ebind_ok_iff] at h; obtain ⟨a5, h5, h⟩ := h
    rw [ebind_ok_iff] at h; obtain ⟨a6, h6, h⟩ := h
    rw [ebind_ok_iff] at h; obtain ⟨a7, h7, h⟩ := h
    simp only [Pure.pure, Except.pure, Except.ok.injEq] at h
    subst h
    exact vStr_ok h2
  · intro o u h
    unfold Recipe.model_validate at h
    rw [ebind_ok_iff] at h; obtain ⟨a1, h1, h⟩ := h
    rw [ebind_ok_iff] at h; obtain ⟨a2, h2, h⟩ := h
    exact ⟨a2, vStr_ok h2⟩
  · intro o u h
    unfold RecipeDetail.model_validate at h
    rw [ebind_ok_iff] at h; obtain ⟨a1, h1, h⟩ := h
    rw [ebind_ok_iff] at h; obtain ⟨a2, h2, h⟩ := h
    exact ⟨a2, vStr_ok h2⟩
  · intro o u h
    unfold RecipeFermentable.model_validate at h
    rw [ebind_ok_iff] at h; obtain ⟨a1, h1, h⟩ := h
    unfold FermentableDetail.model_validate at h1
    rw [ebind_ok_iff] at h1; obtain ⟨a2, h2, h1⟩ := h1
    unfold FermentableBase.model_validate at h2
    rw [ebind_ok_iff] at h2; obtain ⟨a3, h3, h2⟩ := h2
    exact vStrNull_some h3

/-- C6 witness: the amended statement applied at concrete inputs — the
null-id fermentable payload has its `_id` key present; the valid batch
payload carries the non-null identity string `"b1"`; a valid recipe payload
carries a non-null string identity; and a valid recipe-context fermentable
has its identity key present. -/
theorem claim_c6_identity_nullability_witness :
    (∃ j, jgetA fermNullIdMock "_id" "id" = some j) ∧
    jget batchDetailMock "_id" = some (.str "b1") ∧
    (∃ s, jgetA recipeSummaryMock "_id" "id" = some (.str s)) ∧
    (∃ j, jgetA recipeFermMock "_id" "id" = some j) := by
  refine ⟨?_, ?_, ?_, ?_⟩
  · exact claim_c6_identity_nullability.1 fermNullIdMock
      { id := none, inventory := none, name := "X", type := "Grain",
        supplier := "S", attenuation := none } (by rfl)
  · exact claim_c6_identity_nullability.2.2.2.2.1 batchDetailMock
      { name := "Detailed Batch", id := "b1", batch_no := 2, brew_date := none,
        status := .fermenting, brewer := none, recipe_name := "Detailed Recipe" }
      (by rfl)
  · exact claim_c6_identity_nullability.2.2.2.2.2.1 recipeSummaryMock () (by rfl)
  · exact claim_c6_identity_nullability.2.2.2.2.2.2.2.1 recipeFermMock () (by rfl)

/-- C10: parsing a batch Summary succeeds only with a nested `recipe` object
carrying a `name` string (read into `recipe_name`); a batch Detail
additionally requires that the `recipe` object validate as a full
`RecipeDetail`; and the payload carrying only a separate `recipeId` string,
with no recipe object, fails validation of both tiers on `recipe_name`. -/
theorem claim_c10_batch_recipe_linkage :
    (∀ o b, Batch.model_validate o = .ok b →
      ∃ robj, jget o "recipe" = some (.obj robj) ∧
        jget robj "name" = some (.str b.recipe_name)) ∧
    (∀ o (u : Unit), BatchDetail.model_validate o = .ok u →
      ∃ robj, jget o "recipe" = some (.obj robj) ∧
        (RecipeDetail.model_validate robj).isOk = true) ∧
    Batch.model_validate batchOnlyRecipeIdMock = .error "recipe_name" ∧
    BatchDetail.model_validate batchOnlyRecipeIdMock = .error "recipe_name" := by
  refine ⟨?_, ?_, rfl, rfl⟩
  · intro o b h
    unfold Batch.model_validate at h
    rw [ebind_ok_iff] at h; obtain ⟨a1, h1, h⟩ := h
    rw [ebind_ok_iff] at h; obtain ⟨a2, h2, h⟩ := h
    rw [ebind_ok_iff] at h; obtain ⟨a3, h3, h⟩ := h
    rw [ebind_ok_iff] at h; obtain ⟨a4, h4, h⟩ := h
    rw [ebind_ok_iff] at h; obtain ⟨a5, h5, h⟩ := h
    rw [ebind_ok_iff] at h; obtain ⟨a6, h6, h⟩ := h
    rw [ebind_ok_iff] at h; obtain ⟨a7, h7, h⟩ := h
    simp only [Pure.pure, Except.pure, Except.ok.injEq] at h
    subst h
    obtain ⟨inner, hin, hname⟩ := jget2_some (vStr_ok h7)
    exact ⟨inner, hin, hname⟩
  · intro o u h
    unfold BatchDetail.model_validate at h
    rw [ebind_ok_iff] at h; obtain ⟨_, _, h⟩ := h
    rw [ebind_ok_iff] at h; obtain ⟨_, _, h⟩ := h
    rw [ebind_ok_iff] at h; obtain ⟨_, _, h⟩ := h
    rw [ebind_ok_iff] at h; obtain ⟨_, _, h⟩ := h
    rw [ebind_ok_iff] at h; obtain ⟨_, _, h⟩ := h
    rw [ebind_ok_iff] at h; obtain ⟨_, _, h⟩ := h
    rw [ebind_ok_iff] at h; obtain ⟨_, _, h⟩ := h
    rw [ebind_ok_iff] at h; obtain ⟨_, _, h⟩ := h
    rw [ebind_ok_iff] at h; obtain ⟨_, _, h⟩ := h
    rw [ebind_ok_iff] at h; obtain ⟨_, _, h⟩ := h
    rw [ebind_ok_iff] at h; obtain ⟨_, _, h⟩ := h
    rw [ebind_ok_iff] at h; obtain ⟨_, _, h⟩ := h
    rw [ebind_ok_iff] at h; obtain ⟨_, _, h⟩ := h
    rw [ebind_ok_iff] at h; obtain ⟨_, _, h⟩ := h
    rw [ebind_ok_iff] at h; obtain ⟨_, _, h⟩ := h
    rw [ebind_ok_iff] at h; obtain ⟨_, _, h⟩ := h
    rw [ebind_ok_iff] at h; obtain ⟨_, _, h⟩ := h
    rw [ebind_ok_iff] at h; obtain ⟨_, _, h⟩ := h
    rw [ebind_ok_iff] at h; obtain ⟨_, _, h⟩ := h
    rw [ebind_ok_iff] at h; obtain ⟨_, _, h⟩ := h
    rw [ebind_ok_iff] at h; obtain ⟨_, _, h⟩ := h
    rw [ebind_ok_iff] at h; obtain ⟨_, _, h⟩ := h
    rw [ebind_ok_iff] at h; obtain ⟨ar, hrec, h⟩ := h
    obtain ⟨robj, hro, hsub⟩ := vObj_ok hrec
    refine ⟨robj, hro, ?_⟩
    rw [hsub]
    rfl

/-- C10 witness: the two parse-success hypotheses discharged at the test
suite's batch detail payload. -/
theorem claim_c10_batch_recipe_linkage_witness :
    (∃ robj, jget batchDetailMock "recipe" = some (.obj robj) ∧
      jget robj "name" = some (.str "Detailed Recipe")) ∧
    (∃ robj, jget batchDetailMock "recipe" = some (.obj robj) ∧
      (RecipeDetail.model_validate robj).isOk = true) := by
  constructor
  · exact claim_c10_batch_recipe_linkage.1 batchDetailMock
      { name := "Detailed Batch", id := "b1", batch_no := 2, brew_date := none,
        status := .fermenting, brewer := none, recipe_name := "Detailed Recipe" }
      (by rfl)
  · exact claim_c10_batch_recipe_linkage.2.1 batchDetailMock () (by rfl)

/-- C2 (modelled from the spec — `brewfather_mcp/utils.py` is absent from
the source tree): for every concurrency limit at least 1, every input length
and every completion schedule, the bounded concurrent fetch helper never has
more than `limit` detail fetches in flight in any state it passes through;
and whenever every fetch succeeds and the schedule completes, the output is
the details of the inputs in input order, regardless of the completion
order the schedule chose. -/
theorem claim_c2_bounded_concurrency_order {ε δ : Type} (limit n : Nat)
    (hlim : 1 ≤ limit) (fetch : Nat → Except ε δ) (sched : List Nat) :
    (∀ s ∈ Hydrate.states fetch limit n sched, s.inFlight.length ≤ limit) ∧
    (∀ g : Nat → δ, (∀ i, i < n → fetch i = .ok (g i)) →
      Hydrate.Completes fetch limit n sched →
      Hydrate.get_in_batches limit fetch n sched = .ok ((List.range n).map g)) := by
  constructor
  · intro s hs
    exact (Hydrate.inv_states fetch limit n sched s hs).2.2.1
  · intro g hok hc
    obtain ⟨h1, h2, h3, h4, h5, h6, h7, h8, h9⟩ := Hydrate.inv_runSched fetch limit n sched
    have herrnone : (Hydrate.runSched fetch limit n sched).firstErr = none := by
      rw [h9]
      have hnil : ((Hydrate.runSched fetch limit n sched).log.filterMap
          fun i => Hydrate.errOf (fetch i)) = [] := by
        rw [List.filterMap_eq_nil_iff]
        intro j hj
        have hjn : j < n := (Hydrate.done_log hc j).mp hj
        rw [hok j hjn]
        rfl
      rw [hnil]
      rfl
    have hslots : (Hydrate.runSched fetch limit n sched).slots =
        (List.range n).map (fun i => some (Except.ok (g i))) := by
      apply List.ext_getElem?
      intro i
      by_cases hi : i < n
      · rw [Hydrate.done_slots hc i hi, hok i hi, List.getElem?_map,
          List.getElem?_range hi]
        rfl
      · rw [List.getElem?_eq_none
            (by omega : (Hydrate.runSched fetch limit n sched).slots.length ≤ i),
          List.getElem?_eq_none]
        simp only [List.length_map, List.length_range]
        omega
    simp only [Hydrate.get_in_batches]
    rw [herrnone, hslots, List.filterMap_map]
    rw [← List.filterMap_eq_map g]
    rfl

/-- C2 witness: limit 3, seven items, an all-successful fetch and the
schedule that always completes the oldest in-flight task — the helper
returns the seven details in input order. -/
theorem claim_c2_bounded_concurrency_order_witness :
    (1 : Nat) ≤ 3 ∧
    Hydrate.get_in_batches 3 fetchOkNat 7 [0, 0, 0, 0, 0, 0, 0] =
      .ok [0, 1, 2, 3, 4, 5, 6] :=
  ⟨by decide,
    ((claim_c2_bounded_concurrency_order 3 7 (by decide) fetchOkNat
        [0, 0, 0, 0, 0, 0, 0]).2
      (fun i => i) (fun i _ => rfl) (by constructor <;> rfl)).trans (by rfl)⟩

/-- C3 (modelled from the spec — `brewfather_mcp/utils.py` is absent from
the source tree): if any single fetch of a completed hydration fails, the
helper returns the error of the first failing completion, unwrapped, and
returns no list of results (its result is an `error`, never a partial
`ok`). -/
theorem claim_c3_error_propagation {ε δ : Type} (limit n : Nat)
    (fetch : Nat → Except ε δ) (sched : List Nat)
    (hc : Hydrate.Completes fetch limit n sched) (i : Nat) (e : ε)
    (hi : i < n) (he : fetch i = .error e) :
    ∃ e0, Hydrate.get_in_batches limit fetch n sched = .error e0 ∧
      (((Hydrate.runSched fetch limit n sched).log.filterMap
        fun j => Hydrate.errOf (fetch j)).head? = some e0) ∧
      ∃ j, j < n ∧ fetch j = .error e0 := by
  obtain ⟨h1, h2, h3, h4, h5, h6, h7, h8, h9⟩ := Hydrate.inv_runSched fetch limit n sched
  have hilog : i ∈ (Hydrate.runSched fetch limit n sched).log :=
    (Hydrate.done_log hc i).mpr hi
  have hmem : e ∈ ((Hydrate.runSched fetch limit n sched).log.filterMap
      fun j => Hydrate.errOf (fetch j)) :=
    List.mem_filterMap.mpr ⟨i, hilog, by rw [he]; rfl⟩
  cases hfm : ((Hydrate.runSched fetch limit n sched).log.filterMap
      fun j => Hydrate.errOf (fetch j)) with
  | nil =>
    rw [hfm] at hmem
    simp at hmem
  | cons e0 t =>
    have herr : (Hydrate.runSched fetch limit n sched).firstErr = some e0 := by
      rw [h9, hfm]
      rfl
    have he0mem : e0 ∈ ((Hydrate.runSched fetch limit n sched).log.filterMap
        fun j => Hydrate.errOf (fetch j)) := by
      rw [hfm]
      exact List.mem_cons_self _ _
    obtain ⟨j, hjlog, hje⟩ := List.mem_filterMap.mp he0mem
    have hjn : j < n := (Hydrate.done_log hc j).mp hjlog
    have hfj : fetch j = .error e0 := by
      cases hfjc : fetch j with
      | ok d =>
        rw [hfjc] at hje
        simp [Hydrate.errOf] at hje
      | error e1 =>
        rw [hfjc] at hje
        simp only [Hydrate.errOf, Option.some.injEq] at hje
        rw [hje]
    refine ⟨e0, ?_, rfl, j, hjn, hfj⟩
    simp only [Hydrate.get_in_batches]
    rw [herr]

/-- C3 witness: seven items hydrated with limit 3 where the 4th fetch fails
with `"boom"` — the helper surfaces that error and returns no partial
list. -/
theorem claim_c3_error_propagation_witness :
    ∃ e0, Hydrate.get_in_batches 3 fetchBoomNat 7 [0, 0, 0, 0, 0, 0, 0] = .error e0 ∧
      (((Hydrate.runSched fetchBoomNat 3 7 [0, 0, 0, 0, 0, 0, 0]).log.filterMap
        fun j => Hydrate.errOf (fetchBoomNat j)).head? = some e0) ∧
      ∃ j, j < 7 ∧ fetchBoomNat j = .error e0 :=
  claim_c3_error_propagation 3 7 fetchBoomNat [0, 0, 0, 0, 0, 0, 0]
    (by constructor <;> rfl) 3 "boom" (by decide) (by rfl)
